import Mathlib

/-!
Shallow embedding of the kidizen-science-api entity-mutation core.

Source layout (JavaScript):
* `entity-type.js`  — `Property`, `EntityType.validateProperties`
* `constants.js`    — property validators (`VALIDATE_PASSWORD`, …) and the
  per-collection property sets
* `ancestor.js`     — `Credential` (encrypted secrets), `validateAuthHeader`,
  `resetUnknownPassword`
* `data-number.js`  — the aggregate maintainer for `project.data_number.number`
* `batch-delete.js` — cascade deletion of a project's observations / a
  teacher's projects
* `crud.js`         — `postEntity` (teacher + credential creation) and
  `getEntities` (paginated list)

JavaScript objects carrying request bodies are modelled by the `Value`
inductive; mutation of `this` is modelled by explicit state passing; every
fallible external call (Datastore, Cloud Storage, encryption) is abstracted
into an environment record whose fields tell which calls succeed.
-/

namespace KidizenScience

/-- A JSON-ish JavaScript value as it appears in request bodies.  Objects are
association lists of key/value pairs (JavaScript object keys are unique). -/
inductive Value where
  | str (s : String)
  | num (n : Int)
  | bool (b : Bool)
  | null
  | obj (fields : List (String × Value))

/-- `entity-type.js` `Property`: name, validator, required-on-create flag. -/
structure Property where
  name : String
  validator : Value → Bool
  required : Bool

/-- Looks a key up in an object's field list, i.e. `entityData[key]`. -/
def objGet (fields : List (String × Value)) (key : String) : Option Value :=
  match fields.find? (fun kv => kv.1 == key) with
  | none => none
  | some kv => some kv.2

/-- The accumulator loop of `EntityType.validateProperties`: walks
`expectedProperties`, returning `none` on an early `return false` and
`some numProps` otherwise (`numProps` counts the recognized properties that
are present in the data). -/
def validateLoop (entityData : List (String × Value)) :
    List Property → Nat → Option Nat
  | [], numProps => some numProps
  | prop :: rest, numProps =>
    match objGet entityData prop.name with
    | none =>
      if prop.required then none
      else validateLoop entityData rest numProps
    | some value =>
      if prop.validator value then validateLoop entityData rest (numProps + 1)
      else none

/-- `EntityType.validateProperties(entityData, expectedProperties)`:
fails when a required property is absent, a present recognized property fails
its validator, fewer than one recognized property is present, or an
unrecognized property is present. -/
def validateProperties (entityData : List (String × Value))
    (expectedProperties : List Property) : Bool :=
  match validateLoop entityData expectedProperties 0 with
  | none => false
  | some numProps =>
    if numProps < 1 then false
    else entityData.all (fun kv =>
      !(expectedProperties.filter (fun prop => prop.name == kv.1)).isEmpty)

/-! ### Property validators (`constants.js`) -/

/-- `VALIDATE_STRING`: a string of positive length. -/
def VALIDATE_STRING : Value → Bool
  | .str s => decide (0 < s.length)
  | _ => false

/-- `VALIDATE_STRING_OR_NULL`. -/
def VALIDATE_STRING_OR_NULL (v : Value) : Bool :=
  match v with
  | .null => true
  | _ => VALIDATE_STRING v

/-- `VALIDATE_EMBEDDED_OBJECT`: `typeof(value) === 'object' && value !== null`.
In this embedding only `Value.obj` plays the role of a non-null object. -/
def VALIDATE_EMBEDDED_OBJECT : Value → Bool
  | .obj _ => true
  | _ => false

/-- `VALIDATE_DS_ID`: a string (possibly empty) all of whose characters are
ASCII digits (`ds.isValidId`). -/
def VALIDATE_DS_ID : Value → Bool
  | .str s => s.toList.all (fun c => decide ('0' ≤ c) && decide (c ≤ '9'))
  | _ => false

/-- One character of the `VALIDATE_PASSWORD` loop: an ASCII uppercase letter,
lowercase letter, or digit (the JS comparisons `c >= 'A' && c <= 'Z'` etc.). -/
def isPasswordChar (c : Char) : Bool :=
  (decide ('A' ≤ c) && decide (c ≤ 'Z')) ||
  (decide ('a' ≤ c) && decide (c ≤ 'z')) ||
  (decide ('0' ≤ c) && decide (c ≤ '9'))

/-- `VALIDATE_PASSWORD`: a string of length 8–16 whose characters are all
ASCII letters or digits. -/
def VALIDATE_PASSWORD : Value → Bool
  | .str s =>
    if s.length < 8 || 16 < s.length then false
    else s.toList.all isPasswordChar
  | _ => false

/-- `VALIDATE_SECRET_QUESTIONS`: an object with exactly the four non-empty
string fields `question_1`, `question_2`, `answer_1`, `answer_2`, with the two
questions distinct and the two answers distinct.  (The JS `===` comparisons
run after `VALIDATE_STRING` has ensured the four values are strings.) -/
def VALIDATE_SECRET_QUESTIONS : Value → Bool
  | .obj fields =>
    if fields.length != 4 then false
    else
      match objGet fields "question_1", objGet fields "question_2",
            objGet fields "answer_1", objGet fields "answer_2" with
      | some (.str q1), some (.str q2), some (.str a1), some (.str a2) =>
        if q1.length == 0 then false
        else if q2.length == 0 then false
        else if a1.length == 0 then false
        else if a2.length == 0 then false
        else if q1 == q2 then false
        else if a1 == a2 then false
        else true
      | _, _, _, _ => false
  | _ => false

/-- `VALIDATE_PROJECT_DATA_NUMBER`: an object with exactly a non-empty string
`name`, a boolean `must_be_unique`, and a numeric `number`. -/
def VALIDATE_PROJECT_DATA_NUMBER : Value → Bool
  | .obj fields =>
    if fields.length != 3 then false
    else
      match objGet fields "name", objGet fields "must_be_unique",
            objGet fields "number" with
      | some (.str nm), some (.bool _), some (.num _) => decide (0 < nm.length)
      | _, _, _ => false
  | _ => false

/-- `VALIDATE_IMAGE`: an object with exactly the non-empty string fields
`title`, `url`, `alt_text`. -/
def VALIDATE_IMAGE : Value → Bool
  | .obj fields =>
    if fields.length != 3 then false
    else
      match objGet fields "title", objGet fields "url",
            objGet fields "alt_text" with
      | some (.str t), some (.str u), some (.str a) =>
        decide (0 < t.length) && decide (0 < u.length) && decide (0 < a.length)
      | _, _, _ => false
  | _ => false

/-- `VALIDATE_OBSERVATION_DATA_NUMBER`: an object with exactly a non-empty
string `description` and a numeric `quantity`. -/
def VALIDATE_OBSERVATION_DATA_NUMBER : Value → Bool
  | .obj fields =>
    if fields.length != 2 then false
    else
      match objGet fields "description", objGet fields "quantity" with
      | some (.str d), some (.num _) => decide (0 < d.length)
      | _, _ => false
  | _ => false

/-! ### Property sets (`constants.js` `COLLECTIONS` / `CREDENTIAL_ENTITY_TYPE`) -/

/-- `COLLECTIONS.roots.teachers`'s `createProperties`. -/
def teachersCreateProperties : List Property :=
  [⟨"name", VALIDATE_STRING, true⟩,
   ⟨"email", VALIDATE_STRING, true⟩,
   ⟨"school", VALIDATE_STRING, true⟩,
   ⟨"password", VALIDATE_PASSWORD, true⟩,
   ⟨"secret_questions", VALIDATE_SECRET_QUESTIONS, true⟩]

/-- `COLLECTIONS.roots.teachers`'s `updateProperties`. -/
def teachersUpdateProperties : List Property :=
  [⟨"name", VALIDATE_STRING, false⟩,
   ⟨"profile_photo", VALIDATE_STRING_OR_NULL, false⟩,
   ⟨"email", VALIDATE_STRING, false⟩,
   ⟨"school", VALIDATE_STRING, false⟩]

/-- `CREDENTIAL_ENTITY_TYPE`'s `createProperties`. -/
def credentialCreateProperties : List Property :=
  [⟨"password", VALIDATE_PASSWORD, true⟩,
   ⟨"secret_questions", VALIDATE_SECRET_QUESTIONS, true⟩]

/-- `CREDENTIAL_ENTITY_TYPE`'s `updateProperties`. -/
def credentialUpdateProperties : List Property :=
  [⟨"password", VALIDATE_PASSWORD, false⟩,
   ⟨"secret_questions", VALIDATE_SECRET_QUESTIONS, false⟩]

/-! ### Aggregate maintainer (`data-number.js`) -/

/-- `observation.data_number` (`ObservationDataNumber`). -/
structure ObservationDataNumber where
  quantity : Int
  description : String
deriving DecidableEq

/-- `ObservationDataNumber.deepEquals`. -/
def ObservationDataNumber.deepEquals (a b : ObservationDataNumber) : Bool :=
  a.quantity == b.quantity && a.description == b.description

/-- `project.data_number` (`ProjectDataNumber`). -/
structure ProjectDataNumber where
  name : String
  number : Int
  must_be_unique : Bool
deriving DecidableEq

/-- `ProjectDataNumber.addObservation`: adjusts `number` for a newly added
observation and reports whether it changed.  The optional description set is
`none` when the JS caller passes `null`; dereferencing it in the unique branch
would crash in JS, modelled by returning `none`. -/
def ProjectDataNumber.addObservation (pdn : ProjectDataNumber)
    (newODN : ObservationDataNumber) (otherODNDescriptions : Option (Finset String)) :
    Option (ProjectDataNumber × Bool) :=
  if pdn.must_be_unique then
    match otherODNDescriptions with
    | none => none
    | some others =>
      if newODN.description ∈ others then some (pdn, false)
      else some ({ pdn with number := pdn.number + 1 }, true)
  else
    some ({ pdn with number := pdn.number + newODN.quantity }, true)

/-- `ProjectDataNumber.deleteObservation`: adjusts `number` for a deleted (or
replaced) observation, symmetric to `addObservation`. -/
def ProjectDataNumber.deleteObservation (pdn : ProjectDataNumber)
    (oldODN : ObservationDataNumber) (otherODNDescriptions : Option (Finset String)) :
    Option (ProjectDataNumber × Bool) :=
  if pdn.must_be_unique then
    match otherODNDescriptions with
    | none => none
    | some others =>
      if oldODN.description ∈ others then some (pdn, false)
      else some ({ pdn with number := pdn.number - 1 }, true)
  else
    some ({ pdn with number := pdn.number - oldODN.quantity }, true)

/-- The project's observations as stored in Datastore at the transaction's
snapshot: Datastore id paired with the observation's `data_number`. -/
abbrev ObsTable := List (String × ObservationDataNumber)

/-- `getOtherODNDescriptions`: the set of `data_number.description` values of
every observation of the project whose id differs from `excludeId`. -/
def getOtherODNDescriptions (obs : ObsTable) (excludeId : Option String) :
    Finset String :=
  ((obs.filter (fun e =>
      match excludeId with
      | none => true
      | some x => !(e.1 == x))).map
    (fun e => e.2.description)).toFinset

/-- Environment for one aggregate-maintainer run: which of its external calls
succeed (`getOtherODNDescriptions` query, `ds.getAncestorData` project fetch,
`saveUpdatedProject` save). -/
structure DataNumberEnv where
  descQueryOk : Bool
  projectFetchOk : Bool
  saveOk : Bool

/-- The all-successful environment. -/
def DataNumberEnv.ok : DataNumberEnv := ⟨true, true, true⟩

/-- Outcome of one `process*Observation` call: overall success, the project's
`data_number` as committed (the pre-call value when the call fails, since the
enclosing transaction rolls back), whether `saveUpdatedProject` rewrote the
project, and whether `getOtherODNDescriptions` was invoked. -/
structure ProcessResult where
  success : Bool
  pdn : ProjectDataNumber
  persisted : Bool
  fetchedDescriptions : Bool
deriving DecidableEq

/-- `processPostedObservation`: updates `project.data_number.number` when a new
observation is posted.  `obs` is the snapshot table of the project's
observations, not yet containing the new one. -/
def processPostedObservation (env : DataNumberEnv) (projectDN : ProjectDataNumber)
    (obs : ObsTable) (newODN : ObservationDataNumber) : ProcessResult :=
  let fetched := projectDN.must_be_unique
  let others? : Option (Finset String) :=
    if projectDN.must_be_unique then
      if env.descQueryOk then some (getOtherODNDescriptions obs none) else none
    else none
  if projectDN.must_be_unique && others?.isNone then
    ⟨false, projectDN, false, fetched⟩
  else
    match projectDN.addObservation newODN others? with
    | none => ⟨false, projectDN, false, fetched⟩
    | some (pdn', changed) =>
      if changed then
        if env.saveOk then ⟨true, pdn', true, fetched⟩
        else ⟨false, projectDN, false, fetched⟩
      else ⟨true, pdn', false, fetched⟩

/-- `processUpdatedObservation`: updates `project.data_number.number` when an
observation's `data_number` is patched from `oldODN` to `newODN`.  `projectDN`
is the project's current `data_number` (fetched inside the call, gated by
`env.projectFetchOk`); `obs` is the snapshot table. -/
def processUpdatedObservation (env : DataNumberEnv) (projectDN : ProjectDataNumber)
    (obs : ObsTable) (observationId : String)
    (oldODN newODN : ObservationDataNumber) : ProcessResult :=
  if newODN.deepEquals oldODN then ⟨true, projectDN, false, false⟩
  else if !env.projectFetchOk then ⟨false, projectDN, false, false⟩
  else if projectDN.must_be_unique && (oldODN.description == newODN.description) then
    ⟨true, projectDN, false, false⟩
  else
    let fetched := projectDN.must_be_unique
    let others? : Option (Finset String) :=
      if projectDN.must_be_unique then
        if env.descQueryOk then
          some (getOtherODNDescriptions obs (some observationId))
        else none
      else none
    if projectDN.must_be_unique && others?.isNone then
      ⟨false, projectDN, false, fetched⟩
    else
      match projectDN.deleteObservation oldODN others? with
      | none => ⟨false, projectDN, false, fetched⟩
      | some (pdn1, _) =>
        match pdn1.addObservation newODN others? with
        | none => ⟨false, projectDN, false, fetched⟩
        | some (pdn2, _) =>
          if projectDN.number != pdn2.number then
            if env.saveOk then ⟨true, pdn2, true, fetched⟩
            else ⟨false, projectDN, false, fetched⟩
          else ⟨true, pdn2, false, fetched⟩

/-- `processDeletedObservation`: updates `project.data_number.number` when an
observation is deleted.  `obs` is the snapshot table, still containing the
deleted observation under `observationId`. -/
def processDeletedObservation (env : DataNumberEnv) (projectDN : ProjectDataNumber)
    (obs : ObsTable) (observationId : String)
    (odn : ObservationDataNumber) : ProcessResult :=
  if !env.projectFetchOk then ⟨false, projectDN, false, false⟩
  else
    let fetched := projectDN.must_be_unique
    let others? : Option (Finset String) :=
      if projectDN.must_be_unique then
        if env.descQueryOk then
          some (getOtherODNDescriptions obs (some observationId))
        else none
      else none
    if projectDN.must_be_unique && others?.isNone then
      ⟨false, projectDN, false, fetched⟩
    else
      match projectDN.deleteObservation odn others? with
      | none => ⟨false, projectDN, false, fetched⟩
      | some (pdn', changed) =>
        if changed then
          if env.saveOk then ⟨true, pdn', true, fetched⟩
          else ⟨false, projectDN, false, fetched⟩
        else ⟨true, pdn', false, fetched⟩

/-! ### The observation lifecycle as a transition system (`crud.js` +
`data-number.js`) -/

/-- A project's server-side state: its `data_number` and its live
observations. -/
structure ProjectState where
  pdn : ProjectDataNumber
  obs : ObsTable
deriving DecidableEq

/-- One observation CRUD operation against a fixed project. -/
inductive ObsOp where
  | create (id : String) (odn : ObservationDataNumber)
  | update (id : String) (odn : ObservationDataNumber)
  | delete (id : String)

/-- One committed-or-rolled-back observation operation, as orchestrated by
`postEntity` / `updateEntity` / `deleteEntity`: the record mutation and the
aggregate maintainer share one transaction, so a failed maintainer run leaves
the state unchanged.  `none` marks inputs outside the orchestrator's reach
(creating a Datastore id that already exists). -/
def stepObs (env : DataNumberEnv) (s : ProjectState) : ObsOp → Option ProjectState
  | .create id odn =>
    if id ∈ s.obs.map Prod.fst then none
    else
      let r := processPostedObservation env s.pdn s.obs odn
      if r.success then some ⟨r.pdn, s.obs ++ [(id, odn)]⟩ else some s
  | .update id newODN =>
    match s.obs.find? (fun e => e.1 == id) with
    | none => some s
    | some (_, oldODN) =>
      let r := processUpdatedObservation env s.pdn s.obs id oldODN newODN
      if r.success then
        some ⟨r.pdn, s.obs.map (fun e => if e.1 == id then (id, newODN) else e)⟩
      else some s
  | .delete id =>
    match s.obs.find? (fun e => e.1 == id) with
    | none => some s
    | some (_, odn) =>
      let r := processDeletedObservation env s.pdn s.obs id odn
      if r.success then some ⟨r.pdn, s.obs.filter (fun e => !(e.1 == id))⟩
      else some s

/-- Runs a sequence of observation operations, each under its own
environment. -/
def runObs (s : ProjectState) : List (DataNumberEnv × ObsOp) → Option ProjectState
  | [] => some s
  | (env, op) :: rest =>
    match stepObs env s op with
    | none => none
    | some s' => runObs s' rest

/-- The value `project.data_number.number` is supposed to equal: the sum of
the observations' quantities, or the number of distinct descriptions when
`must_be_unique`. -/
def aggregate (unique : Bool) (obs : ObsTable) : Int :=
  if unique then ((obs.map (fun e => e.2.description)).toFinset.card : Int)
  else (obs.map (fun e => e.2.quantity)).sum

/-- The derived-aggregate invariant, together with well-formedness of the
table (Datastore ids are unique). -/
def Invariant (s : ProjectState) : Prop :=
  s.pdn.number = aggregate s.pdn.must_be_unique s.obs ∧
  (s.obs.map Prod.fst).Nodup

instance (s : ProjectState) : Decidable (Invariant s) := by
  unfold Invariant; infer_instance

/-! ### Cascade deleter (`batch-delete.js`) -/

/-- One observation row as returned by the cascade's projection query
(`__key__`, `data_image.url`). -/
structure ObsRow where
  key : String
  imageUrl : String

/-- One project row as returned by the cascade's projection query
(`__key__`, `description_image.url`), together with the observation rows the
per-project query would find under it. -/
structure ProjRow where
  key : String
  imageUrl : String
  observations : List ObsRow

/-- Environment for a cascade run: which Datastore calls succeed, and which
image URLs `storage.deleteImage` succeeds on (it catches its own errors and
returns `false` rather than throwing). -/
structure CascadeEnv where
  obsQueryOk : Bool
  obsDeleteOk : Bool
  projQueryOk : Bool
  projDeleteOk : Bool
  imageDeleteOk : String → Bool

/-- Outcome of a cascade call: the returned boolean, the blobs actually
removed from Cloud Storage (irreversible even if the transaction later rolls
back), and the record deletions buffered in the transaction. -/
structure CascadeResult where
  success : Bool
  deletedImages : List String
  deletedRecordKeys : List String

/-- `deleteObservationsOfProject`: queries the project's observations, calls
`storage.deleteImage` on each row's URL (ignoring its returned boolean), then
batch-deletes the observation records.  Only a thrown Datastore error (query
or batch delete) reaches the `catch` and yields `false`. -/
def deleteObservationsOfProject (env : CascadeEnv) (obsRows : List ObsRow) :
    CascadeResult :=
  if !env.obsQueryOk then ⟨false, [], []⟩
  else
    let deletedImages :=
      (obsRows.filter (fun o => env.imageDeleteOk o.imageUrl)).map
        (fun o => o.imageUrl)
    if env.obsDeleteOk then ⟨true, deletedImages, obsRows.map (fun o => o.key)⟩
    else ⟨false, deletedImages, []⟩

/-- `deleteProjectsOfTeacher`: queries the teacher's projects; per project,
calls `storage.deleteImage` (boolean ignored) and
`deleteObservationsOfProject` (boolean ignored too), then batch-deletes the
project records.  Only a thrown Datastore error in this function's own query
or batch delete yields `false`. -/
def deleteProjectsOfTeacher (env : CascadeEnv) (projRows : List ProjRow) :
    CascadeResult :=
  if !env.projQueryOk then ⟨false, [], []⟩
  else
    let perProject := projRows.map (fun p =>
      let sub := deleteObservationsOfProject env p.observations
      ((if env.imageDeleteOk p.imageUrl then [p.imageUrl] else []) ++
          sub.deletedImages,
        sub.deletedRecordKeys))
    let images := (perProject.map Prod.fst).flatten
    let subKeys := (perProject.map Prod.snd).flatten
    if env.projDeleteOk then
      ⟨true, images, subKeys ++ projRows.map (fun p => p.key)⟩
    else ⟨false, images, subKeys⟩

/-! ### Credential store and auth guard (`ancestor.js`) -/

/-- `SecretQuestions`: two questions and their answers. -/
structure SecretQuestions where
  question_1 : String
  question_2 : String
  answer_1 : String
  answer_2 : String
deriving DecidableEq

/-- `SecretQuestions.deepCompare`. -/
def SecretQuestions.deepCompare (a b : SecretQuestions) : Bool :=
  if a.question_1 != b.question_1 then false
  else if a.question_2 != b.question_2 then false
  else if a.answer_1 != b.answer_1 then false
  else if a.answer_2 != b.answer_2 then false
  else true

/-- `ResetCode`: a temporary code and its expiry, both kept as strings (the
expiry is a decimal timestamp string so it can be encrypted). -/
structure ResetCode where
  code : String
  expires : String
deriving DecidableEq

/-- `constants.RESET_CODE_LIFETIME`: 30 minutes in milliseconds. -/
def RESET_CODE_LIFETIME : Int := 30 * 60 * 1000

/-- The environment of the credential subsystem: the process-wide symmetric
cipher (`Credential.encryptString` / `decryptString`), the wall clock
(`Date.now()`), and the next random code (`uuid.v4()`). -/
structure CryptoEnv where
  enc : String → String
  dec : String → String
  now : Int
  freshCode : String

/-- `ResetCode.refreshCode`: a fresh random code expiring 30 minutes from
now. -/
def ResetCode.refreshCode (env : CryptoEnv) : ResetCode :=
  ⟨env.freshCode, toString (env.now + RESET_CODE_LIFETIME)⟩

/-- Digit test for `parseInt`. -/
def isDigitChar (c : Char) : Bool := decide ('0' ≤ c) && decide (c ≤ '9')

/-- The integer value of a digit string. -/
def natOfDigits (cs : List Char) : Int :=
  cs.foldl (fun n c => 10 * n + (Int.ofNat (c.toNat - '0'.toNat))) 0

/-- JS `parseInt(s, 10)` restricted to the strings this system stores as
expiry timestamps: an optionally negated run of decimal digits, with `none`
playing the role of `NaN` (in particular `parseInt("")` is `NaN`). -/
def parseDecimal? (s : String) : Option Int :=
  match s.toList with
  | [] => none
  | '-' :: rest =>
    if rest.isEmpty then none
    else if rest.all isDigitChar then some (-(natOfDigits rest)) else none
  | cs => if cs.all isDigitChar then some (natOfDigits cs) else none

/-- `ResetCode.isUnexpired`: `Date.now() < parseInt(expires)`; an unparsable
expiry (`parseInt` yields `NaN`, e.g. for the cleared empty string) compares
false. -/
def ResetCode.isUnexpired (env : CryptoEnv) (rc : ResetCode) : Bool :=
  match parseDecimal? rc.expires with
  | none => false
  | some t => decide (env.now < t)

/-- `ResetCode.clearCode`. -/
def ResetCode.clearCode : ResetCode := ⟨"", ""⟩

/-- The `data` record of a `Credential`: every string field is individually
encrypted at rest. -/
structure CredentialData where
  password : String
  secret_questions : SecretQuestions
  reset_code : ResetCode
deriving DecidableEq

/-- `Credential.decryptPassword` (pair with `encryptPassword`). -/
def decryptPassword (env : CryptoEnv) (c : CredentialData) : CredentialData :=
  { c with password := env.dec c.password }

/-- `Credential.encryptPassword`. -/
def encryptPassword (env : CryptoEnv) (c : CredentialData) : CredentialData :=
  { c with password := env.enc c.password }

/-- `Credential.decryptSecretQuestions`. -/
def decryptSecretQuestions (env : CryptoEnv) (c : CredentialData) :
    CredentialData :=
  { c with secret_questions :=
    ⟨env.dec c.secret_questions.question_1, env.dec c.secret_questions.question_2,
     env.dec c.secret_questions.answer_1, env.dec c.secret_questions.answer_2⟩ }

/-- `Credential.encryptSecretQuestions`. -/
def encryptSecretQuestions (env : CryptoEnv) (c : CredentialData) :
    CredentialData :=
  { c with secret_questions :=
    ⟨env.enc c.secret_questions.question_1, env.enc c.secret_questions.question_2,
     env.enc c.secret_questions.answer_1, env.enc c.secret_questions.answer_2⟩ }

/-- `Credential.decryptResetCode`. -/
def decryptResetCode (env : CryptoEnv) (c : CredentialData) : CredentialData :=
  { c with reset_code := ⟨env.dec c.reset_code.code, env.dec c.reset_code.expires⟩ }

/-- `Credential.encryptResetCode`. -/
def encryptResetCode (env : CryptoEnv) (c : CredentialData) : CredentialData :=
  { c with reset_code := ⟨env.enc c.reset_code.code, env.enc c.reset_code.expires⟩ }

/-- `Credential.passwordsMatch`: decrypt, compare, re-encrypt; returns the
comparison and the credential object as left by the call. -/
def passwordsMatch (env : CryptoEnv) (c : CredentialData)
    (passwordFromClient : String) : Bool × CredentialData :=
  let c1 := decryptPassword env c
  let passwordsAreEqual := passwordFromClient == c1.password
  let c2 := encryptPassword env c1
  (passwordsAreEqual, c2)

/-- `Credential.secretQuestionsMatch`. -/
def secretQuestionsMatch (env : CryptoEnv) (c : CredentialData)
    (secretQuestionsFromClient : SecretQuestions) : Bool × CredentialData :=
  let c1 := decryptSecretQuestions env c
  let questionsAreEqual := c1.secret_questions.deepCompare secretQuestionsFromClient
  let c2 := encryptSecretQuestions env c1
  (questionsAreEqual, c2)

/-- `Credential.resetCodeValid`: decrypt, compare the code and check
non-expiry, re-encrypt. -/
def resetCodeValid (env : CryptoEnv) (c : CredentialData)
    (resetCodeFromClient : String) : Bool × CredentialData :=
  let c1 := decryptResetCode env c
  let resetCodesMatch := resetCodeFromClient == c1.reset_code.code
  let resetCodeUnexpired := c1.reset_code.isUnexpired env
  let c2 := encryptResetCode env c1
  (resetCodesMatch && resetCodeUnexpired, c2)

/-- `Credential.updatePassword`: store the new password encrypted. -/
def updatePassword (env : CryptoEnv) (c : CredentialData)
    (newPassword : String) : CredentialData :=
  encryptPassword env { c with password := newPassword }

/-- `Credential.clearResetCode`: clear to empty strings and re-encrypt. -/
def clearResetCode (env : CryptoEnv) (c : CredentialData) : CredentialData :=
  encryptResetCode env { c with reset_code := ResetCode.clearCode }

/-- A `ServerResponse`: status code and the `error` message of its JSON
content, when any. -/
structure ServerResponse where
  status : Nat
  error : Option String
deriving DecidableEq

/-- Splits a character list at its first space: `none` when there is no
space, `some ([], rest)` when the string begins with one (both make the JS
`spaceIndex <= 0` check fail). -/
def splitAtFirstSpace : List Char → Option (List Char × List Char)
  | [] => none
  | c :: cs =>
    if c = ' ' then some ([], cs)
    else
      match splitAtFirstSpace cs with
      | none => none
      | some (pre, post) => some (c :: pre, post)

/-- JS `String.prototype.split(":")` (usernames and passwords cannot contain
a colon, so the code requires exactly one). -/
def splitColonAux : List Char → List Char → List String
  | [], acc => [String.mk acc.reverse]
  | c :: cs, acc =>
    if c = ':' then String.mk acc.reverse :: splitColonAux cs []
    else splitColonAux cs (c :: acc)

/-- Splits a string at every colon. -/
def splitColon (s : String) : List String := splitColonAux s.toList []

/-- Outcome of `validateAuthHeader`: the error response (`none` = authorized)
and the credential object as left by the call (`none` when no credential was
resolved before failing). -/
structure AuthCheckResult where
  response : Option ServerResponse
  credential : Option CredentialData
deriving DecidableEq

/-- `validateAuthHeader(transaction, authReceived, teacherIdExpected,
credentialExpected, useResetCode)`.  `decode` is Node's base64-to-utf8
decoding; `storeCredential` is what `getCredential` would return when the
caller did not supply `credentialExpected`. -/
def validateAuthHeader (env : CryptoEnv) (decode : String → String)
    (storeCredential : Option CredentialData) (authReceived : Option String)
    (teacherIdExpected : Option String)
    (credentialExpected : Option CredentialData) (useResetCode : Bool) :
    AuthCheckResult :=
  match authReceived with
  | none =>
    ⟨some ⟨401, some "Authorization is required to access this endpoint."⟩,
      credentialExpected⟩
  | some authReceived =>
    match splitAtFirstSpace authReceived.toList with
    | none =>
      ⟨some ⟨400, some "The authorization credentials included could not be parsed"⟩,
        credentialExpected⟩
    | some (pre, post) =>
      if pre = [] then
        ⟨some ⟨400,
          some "The authorization credentials included could not be parsed"⟩,
          credentialExpected⟩
      else if String.mk pre != "Basic" then
        ⟨some ⟨401, some "Only Basic-type authorization headers are accepted"⟩,
          credentialExpected⟩
      else
        match splitColon (decode (String.mk post)) with
        | [teacherIdReceived, passwordReceived] =>
          if (match teacherIdExpected with
              | none => false
              | some tid => teacherIdReceived != tid) then
            ⟨some ⟨403,
              some "The teacher whose authorization credentials were provided does not own this resource."⟩,
              credentialExpected⟩
          else
            match (match credentialExpected with
                   | none => storeCredential
                   | some c => some c) with
            | none =>
              ⟨some ⟨404,
                some "No credentials could be found on file for the teacher whose credentials were provided."⟩,
                none⟩
            | some credential =>
              if useResetCode then
                let r := resetCodeValid env credential passwordReceived
                if r.1 then ⟨none, some r.2⟩
                else
                  ⟨some ⟨401,
                    some "The reset code provided is incorrect and/or expired."⟩,
                    some r.2⟩
              else
                let r := passwordsMatch env credential passwordReceived
                if r.1 then ⟨none, some r.2⟩
                else
                  ⟨some ⟨401, some "The password provided is incorrect."⟩,
                    some r.2⟩
        | _ =>
          ⟨some ⟨400,
            some "The authorization credentials included could not be parsed"⟩,
            credentialExpected⟩

/-- Builds a `SecretQuestions` from the request body's embedded object
(`new SecretQuestions(requestBody.secret_questions)`); `none` when a field is
not a string, which schema validation has already excluded. -/
def sqOfValue : Value → Option SecretQuestions
  | .obj fields =>
    match objGet fields "question_1", objGet fields "question_2",
          objGet fields "answer_1", objGet fields "answer_2" with
    | some (.str q1), some (.str q2), some (.str a1), some (.str a2) =>
      some ⟨q1, q2, a1, a2⟩
    | _, _, _, _ => none
  | _ => none

/-- `resetUnknownPassword(requestBody, teacherId, authReceived)`: validates
the body against the credential create set, checks the teacher and its
credential exist, authorizes with the reset code, matches the secret
questions, rejects a reused password, then stores the new password and clears
the reset code.  Returns the response and the credential as committed
(`none` = transaction rolled back, store unchanged). -/
def resetUnknownPassword (env : CryptoEnv) (decode : String → String)
    (requestBody : List (String × Value)) (teacherId : String)
    (authReceived : Option String) (teacherExists : Bool)
    (storedCredential : Option CredentialData) :
    ServerResponse × Option CredentialData :=
  if validateProperties requestBody credentialCreateProperties = false then
    (⟨400, some "No valid parameter was included or at least 1 parameter was invalid."⟩,
      none)
  else if !teacherExists then
    (⟨404, some "The teacher with teacher_id cannot be found."⟩, none)
  else
    match storedCredential with
    | none =>
      (⟨404,
        some "No credentials could be found on file for the teacher whose credentials were provided."⟩,
        none)
    | some credentialToUpdate =>
      let authRes := validateAuthHeader env decode none authReceived
        (some teacherId) (some credentialToUpdate) true
      match authRes.response with
      | some resp => (resp, none)
      | none =>
        match authRes.credential with
        | none => (⟨500, some "An internal server error has occurred."⟩, none)
        | some cred1 =>
          match objGet requestBody "secret_questions",
                objGet requestBody "password" with
          | some sqv, some (.str newPassword) =>
            match sqOfValue sqv with
            | none => (⟨500, some "An internal server error has occurred."⟩, none)
            | some sq =>
              let sqRes := secretQuestionsMatch env cred1 sq
              if !sqRes.1 then
                (⟨401,
                  some "The secret questions and answers provided do not match those on file."⟩,
                  none)
              else
                let pwRes := passwordsMatch env sqRes.2 newPassword
                if pwRes.1 then
                  (⟨403, some "The new password cannot match the old one."⟩,
                    none)
                else
                  let cred4 := updatePassword env pwRes.2 newPassword
                  let cred5 := clearResetCode env cred4
                  (⟨204, none⟩, some cred5)
          | _, _ => (⟨500, some "An internal server error has occurred."⟩, none)

/-! ### CRUD orchestrator slices (`crud.js`) -/

/-- `constants.DEFAULT_PROFILE_PHOTO`. -/
def DEFAULT_PROFILE_PHOTO : String :=
  "https://storage.googleapis.com/kidizen-science-images/1606709615803_defaultUserPhoto.png"

/-- The teacher record as saved by `postEntity`: body with `password` and
`secret_questions` removed and `profile_photo` set to the default. -/
def stripSecrets (entityData : List (String × Value)) : List (String × Value) :=
  (entityData.filter (fun kv =>
    !(kv.1 == "password") && !(kv.1 == "secret_questions"))) ++
    [("profile_photo", Value.str DEFAULT_PROFILE_PHOTO)]

/-- Outcome of a create-Teacher call: the HTTP status and the records left
persisted once everything settles. -/
structure PostTeacherResult where
  status : Nat
  teacher : Option (List (String × Value))
  credential : Option CredentialData

/-- The Teacher path of `postEntity`: validate, default the profile photo,
build the encrypted `Credential` copy, strip the secret fields, save the
teacher inside the transaction, commit, and only then — the generated id
exists only after commit — save the credential via `postCredential`, whose
failure yields 500 with the teacher already committed.  The three booleans
tell whether `transaction.save`, `transaction.commit` and the credential
save succeed. -/
def postTeacher (cenv : CryptoEnv)
    (saveTeacherOk commitOk saveCredentialOk : Bool)
    (entityData : List (String × Value)) : PostTeacherResult :=
  if validateProperties entityData teachersCreateProperties = false then
    ⟨400, none, none⟩
  else
    match objGet entityData "password", objGet entityData "secret_questions" with
    | some (.str pw), some sqv =>
      match sqOfValue sqv with
      | none => ⟨500, none, none⟩
      | some sq =>
        let credentialDataCopy : CredentialData :=
          ⟨cenv.enc pw,
           ⟨cenv.enc sq.question_1, cenv.enc sq.question_2,
            cenv.enc sq.answer_1, cenv.enc sq.answer_2⟩,
           ⟨cenv.enc "", cenv.enc ""⟩⟩
        let teacherRecord := stripSecrets entityData
        if !saveTeacherOk then ⟨500, none, none⟩
        else if !commitOk then ⟨500, none, none⟩
        else if !saveCredentialOk then ⟨500, some teacherRecord, none⟩
        else ⟨201, some teacherRecord, some credentialDataCopy⟩
    | _, _ => ⟨500, none, none⟩

/-- The paginated-list path of `getEntities`: optional ancestor / teacher
existence checks, then the query; a thrown query error with `err.code === 3`
is the invalid-cursor case, any other code is a server error. -/
def getEntities (hasAncestor ancestorExists teacherFilter teacherExists : Bool)
    (queryError : Option Nat) : ServerResponse :=
  if hasAncestor && !ancestorExists then
    ⟨404, some "The project with project_id cannot be found."⟩
  else if teacherFilter && !teacherExists then
    ⟨404, some "The teacher with teacher_id cannot be found."⟩
  else
    match queryError with
    | some 3 =>
      ⟨403, some "The start cursor provided is not a valid Datastore cursor."⟩
    | some _ => ⟨500, some "An internal server error has occurred."⟩
    | none => ⟨200, none⟩

/-! ### Lemmas about the aggregate model -/

theorem deepEquals_iff (a b : ObservationDataNumber) :
    a.deepEquals b = true ↔ a = b := by
  cases a; cases b
  simp [ObservationDataNumber.deepEquals, ObservationDataNumber.mk.injEq, and_comm]

theorem getOther_none (obs : ObsTable) :
    getOtherODNDescriptions obs none =
      (obs.map (fun e => e.2.description)).toFinset := by
  unfold getOtherODNDescriptions
  rw [List.filter_eq_self.mpr (fun e _ => rfl)]

theorem getOther_some (obs : ObsTable) (id : String) :
    getOtherODNDescriptions obs (some id) =
      ((obs.filter (fun e => !(e.1 == id))).map
        (fun e => e.2.description)).toFinset :=
  rfl

theorem perm_cons_filter {obs : ObsTable} {id : String}
    {v : ObservationDataNumber} (hmem : (id, v) ∈ obs)
    (hnd : (obs.map Prod.fst).Nodup) :
    obs.Perm ((id, v) :: obs.filter (fun e => !(e.1 == id))) := by
  induction obs with
  | nil => cases hmem
  | cons a t ih =>
    rw [List.map_cons, List.nodup_cons] at hnd
    rcases List.mem_cons.mp hmem with rfl | hmemt
    · have ht : t.filter (fun e => !(e.1 == id)) = t := by
        apply List.filter_eq_self.mpr
        intro e he
        have hin : e.1 ∈ t.map Prod.fst := List.mem_map_of_mem Prod.fst he
        have : e.1 ≠ id := fun h => hnd.1 (h ▸ hin)
        simp [this]
      rw [List.filter_cons]
      simp [ht]
    · have hin : id ∈ t.map Prod.fst := by
        have := List.mem_map_of_mem Prod.fst hmemt
        simpa using this
      have hne : a.1 ≠ id := fun h => hnd.1 (h ▸ hin)
      rw [List.filter_cons]
      have hkeep : (!(a.1 == id)) = true := by simp [hne]
      rw [if_pos hkeep]
      exact ((ih hmemt hnd.2).cons a).trans (List.Perm.swap _ _ _)

/-- Decomposition of the description set at a member entry. -/
theorem descSet_decomp {obs : ObsTable} {id : String}
    {v : ObservationDataNumber} (hmem : (id, v) ∈ obs)
    (hnd : (obs.map Prod.fst).Nodup) :
    (obs.map (fun e => e.2.description)).toFinset =
      insert v.description
        ((obs.filter (fun e => !(e.1 == id))).map
          (fun e => e.2.description)).toFinset := by
  have h := (perm_cons_filter hmem hnd).map (fun e => e.2.description)
  rw [List.toFinset_eq_of_perm _ _ h, List.map_cons, List.toFinset_cons]

/-- Decomposition of the quantity sum at a member entry. -/
theorem qtySum_decomp {obs : ObsTable} {id : String}
    {v : ObservationDataNumber} (hmem : (id, v) ∈ obs)
    (hnd : (obs.map Prod.fst).Nodup) :
    (obs.map (fun e => e.2.quantity)).sum =
      v.quantity +
        ((obs.filter (fun e => !(e.1 == id))).map
          (fun e => e.2.quantity)).sum := by
  have h := (perm_cons_filter hmem hnd).map (fun e => e.2.quantity)
  rw [h.sum_eq, List.map_cons, List.sum_cons]

theorem keys_replace (obs : ObsTable) (id : String)
    (n : ObservationDataNumber) :
    ((obs.map (fun e => if e.1 == id then (id, n) else e)).map Prod.fst) =
      obs.map Prod.fst := by
  rw [List.map_map]
  apply List.map_congr_left
  intro e _
  by_cases h : e.1 = id <;> simp [h]

theorem filter_replace (obs : ObsTable) (id : String)
    (n : ObservationDataNumber) :
    (obs.map (fun e => if e.1 == id then (id, n) else e)).filter
        (fun e => !(e.1 == id)) =
      obs.filter (fun e => !(e.1 == id)) := by
  induction obs with
  | nil => rfl
  | cons a t ih =>
    simp only [List.map_cons, List.filter_cons]
    by_cases h : a.1 = id
    · simp [h] at ih ⊢
      exact ih
    · simp [h] at ih ⊢
      exact ih

theorem mem_replace {obs : ObsTable} {id : String}
    {v : ObservationDataNumber} (n : ObservationDataNumber)
    (hmem : (id, v) ∈ obs) :
    (id, n) ∈ obs.map (fun e => if e.1 == id then (id, n) else e) := by
  have := List.mem_map_of_mem (fun e => if e.1 == id then (id, n) else e) hmem
  simpa using this

/-- On success, `processPostedObservation` leaves the counter at exactly the
code's adjustment; on failure the committed project is unchanged. -/
theorem processPosted_cases (env : DataNumberEnv) (pdn : ProjectDataNumber)
    (obs : ObsTable) (odn : ObservationDataNumber) :
    (processPostedObservation env pdn obs odn).success = false ∧
      (processPostedObservation env pdn obs odn).pdn = pdn ∨
    (processPostedObservation env pdn obs odn).success = true ∧
      (processPostedObservation env pdn obs odn).pdn.number =
        pdn.number +
          (if pdn.must_be_unique then
            (if odn.description ∈ getOtherODNDescriptions obs none
             then 0 else 1)
           else odn.quantity) ∧
      (processPostedObservation env pdn obs odn).pdn.must_be_unique =
        pdn.must_be_unique := by
  unfold processPostedObservation ProjectDataNumber.addObservation
  by_cases hu : pdn.must_be_unique
  · by_cases hq : env.descQueryOk
    · by_cases hmem : odn.description ∈ getOtherODNDescriptions obs none
      · right
        simp [hu, hq, hmem]
      · by_cases hsave : env.saveOk
        · right
          simp [hu, hq, hmem, hsave]
        · left
          simp [hu, hq, hmem, hsave]
    · left
      simp [hu, hq]
  · by_cases hsave : env.saveOk
    · right
      simp [hu, hsave]
    · left
      simp [hu, hsave]

theorem aggregate_true (obs : ObsTable) :
    aggregate true obs =
      ((obs.map (fun e => e.2.description)).toFinset.card : Int) := rfl

theorem aggregate_false (obs : ObsTable) :
    aggregate false obs = (obs.map (fun e => e.2.quantity)).sum := rfl

/-- Appending one observation to the table shifts the aggregate by an insert
into the description set, or by the observation's quantity. -/
theorem aggregate_append (unique : Bool) (obs : ObsTable) (id : String)
    (odn : ObservationDataNumber) :
    aggregate unique (obs ++ [(id, odn)]) =
      (if unique then
        ((insert odn.description
          ((obs.map (fun e => e.2.description)).toFinset)).card : Int)
      else (obs.map (fun e => e.2.quantity)).sum + odn.quantity) := by
  cases unique with
  | false =>
    rw [aggregate_false, if_neg (by simp), List.map_append, List.sum_append]
    simp
  | true =>
    rw [aggregate_true, if_pos rfl]
    have hset : ((obs ++ [(id, odn)]).map (fun e => e.2.description)).toFinset =
        insert odn.description ((obs.map (fun e => e.2.description)).toFinset) := by
      rw [List.map_append, List.toFinset_append]
      simp only [List.map_cons, List.map_nil, List.toFinset_cons,
        List.toFinset_nil]
      ext x
      simp only [Finset.mem_union, Finset.mem_insert, Finset.not_mem_empty,
        or_false]
      tauto
    rw [hset]

theorem stepObs_create_invariant (env : DataNumberEnv) {s s' : ProjectState}
    {id : String} {odn : ObservationDataNumber}
    (hrun : stepObs env s (.create id odn) = some s')
    (hinv : Invariant s) : Invariant s' := by
  simp only [stepObs] at hrun
  by_cases hfresh : id ∈ s.obs.map Prod.fst
  · rw [if_pos hfresh] at hrun; simp at hrun
  · rw [if_neg hfresh] at hrun
    rcases processPosted_cases env s.pdn s.obs odn with ⟨hf, _⟩ | ⟨ht, hnum', hu'⟩
    · rw [hf] at hrun
      simp at hrun
      exact hrun ▸ hinv
    · rw [ht] at hrun
      simp at hrun
      subst hrun
      obtain ⟨hnum, hnd⟩ := hinv
      refine ⟨?_, ?_⟩
      · show (processPostedObservation env s.pdn s.obs odn).pdn.number =
          aggregate _ (s.obs ++ [(id, odn)])
        rw [hnum', hu', hnum, aggregate_append]
        by_cases hu : s.pdn.must_be_unique = true
        · rw [hu, aggregate_true, if_pos rfl, if_pos rfl, getOther_none]
          by_cases hmem : odn.description ∈
              (s.obs.map (fun e => e.2.description)).toFinset
          · rw [if_pos hmem, Finset.insert_eq_self.mpr hmem, add_zero]
          · rw [if_neg hmem, Finset.card_insert_of_not_mem hmem]
            push_cast
            ring
        · rw [Bool.not_eq_true] at hu
          rw [hu, aggregate_false, if_neg (by simp), if_neg (by simp)]
      · show ((s.obs ++ [(id, odn)]).map Prod.fst).Nodup
        rw [List.map_append]
        simp only [List.map_cons, List.map_nil]
        rw [List.nodup_append]
        exact ⟨hnd, List.nodup_singleton id,
          by simpa [List.disjoint_right] using hfresh⟩

/-- On success, `processDeletedObservation` adjusts the counter by exactly the
code's decrement; on failure the committed project is unchanged. -/
theorem processDeleted_cases (env : DataNumberEnv) (pdn : ProjectDataNumber)
    (obs : ObsTable) (id : String) (odn : ObservationDataNumber) :
    (processDeletedObservation env pdn obs id odn).success = false ∧
      (processDeletedObservation env pdn obs id odn).pdn = pdn ∨
    (processDeletedObservation env pdn obs id odn).success = true ∧
      (processDeletedObservation env pdn obs id odn).pdn.number =
        pdn.number -
          (if pdn.must_be_unique then
            (if odn.description ∈ getOtherODNDescriptions obs (some id)
             then 0 else 1)
           else odn.quantity) ∧
      (processDeletedObservation env pdn obs id odn).pdn.must_be_unique =
        pdn.must_be_unique := by
  unfold processDeletedObservation ProjectDataNumber.deleteObservation
  by_cases hp : env.projectFetchOk
  · by_cases hu : pdn.must_be_unique
    · by_cases hq : env.descQueryOk
      · by_cases hmem : odn.description ∈ getOtherODNDescriptions obs (some id)
        · right
          simp [hp, hu, hq, hmem]
        · by_cases hsave : env.saveOk
          · right
            simp [hp, hu, hq, hmem, hsave]
          · left
            simp [hp, hu, hq, hmem, hsave]
      · left
        simp [hp, hu, hq]
    · by_cases hsave : env.saveOk
      · right
        simp [hp, hu, hsave]
      · left
        simp [hp, hu, hsave]
  · left
    simp [hp]

theorem stepObs_delete_invariant (env : DataNumberEnv) {s s' : ProjectState}
    {id : String}
    (hrun : stepObs env s (.delete id) = some s')
    (hinv : Invariant s) : Invariant s' := by
  simp only [stepObs] at hrun
  cases hfind : s.obs.find? (fun e => e.1 == id) with
  | none =>
    rw [hfind] at hrun
    simp at hrun
    exact hrun ▸ hinv
  | some entry =>
    obtain ⟨eid, odn⟩ := entry
    have heq : eid = id := by
      have := List.find?_some hfind
      simpa using this
    subst heq
    have hmem : (eid, odn) ∈ s.obs := List.mem_of_find?_eq_some hfind
    rw [hfind] at hrun
    simp only at hrun
    obtain ⟨hnum, hnd⟩ := hinv
    rcases processDeleted_cases env s.pdn s.obs eid odn with
      ⟨hf, _⟩ | ⟨ht, hnum', hu'⟩
    · rw [hf] at hrun
      simp at hrun
      exact hrun ▸ ⟨hnum, hnd⟩
    · rw [ht] at hrun
      simp at hrun
      subst hrun
      refine ⟨?_, ?_⟩
      · show (processDeletedObservation env s.pdn s.obs eid odn).pdn.number =
          aggregate _ (s.obs.filter (fun e => !(e.1 == eid)))
        rw [hnum', hu', hnum]
        by_cases hu : s.pdn.must_be_unique = true
        · rw [hu, aggregate_true, aggregate_true, if_pos rfl, getOther_some,
            descSet_decomp hmem hnd]
          by_cases hmem2 : odn.description ∈
              ((s.obs.filter (fun e => !(e.1 == eid))).map
                (fun e => e.2.description)).toFinset
          · rw [if_pos hmem2, Finset.insert_eq_self.mpr hmem2, sub_zero]
          · rw [if_neg hmem2, Finset.card_insert_of_not_mem hmem2]
            push_cast
            ring
        · rw [Bool.not_eq_true] at hu
          rw [hu, aggregate_false, aggregate_false, if_neg (by simp),
            qtySum_decomp hmem hnd]
          ring
      · show ((s.obs.filter (fun e => !(e.1 == eid))).map Prod.fst).Nodup
        have hsub : ((s.obs.filter (fun e => !(e.1 == eid))).map Prod.fst).Sublist
            (s.obs.map Prod.fst) :=
          (List.filter_sublist s.obs).map Prod.fst
        exact hnd.sublist hsub

/-- On success, `processUpdatedObservation` either leaves the project
untouched (value-equal patch, or unique mode with unchanged description) or
adjusts the counter by removing the old contribution and adding the new one;
on failure the committed project is unchanged. -/
theorem processUpdated_cases (env : DataNumberEnv) (pdn : ProjectDataNumber)
    (obs : ObsTable) (id : String) (oldODN newODN : ObservationDataNumber) :
    (processUpdatedObservation env pdn obs id oldODN newODN).success = false ∧
      (processUpdatedObservation env pdn obs id oldODN newODN).pdn = pdn ∨
    (processUpdatedObservation env pdn obs id oldODN newODN).success = true ∧
      (processUpdatedObservation env pdn obs id oldODN newODN).pdn = pdn ∧
      (newODN = oldODN ∨
        (pdn.must_be_unique = true ∧ oldODN.description = newODN.description)) ∨
    (processUpdatedObservation env pdn obs id oldODN newODN).success = true ∧
      (processUpdatedObservation env pdn obs id oldODN newODN).pdn.number =
        pdn.number -
          (if pdn.must_be_unique then
            (if oldODN.description ∈ getOtherODNDescriptions obs (some id)
             then 0 else 1)
           else oldODN.quantity) +
          (if pdn.must_be_unique then
            (if newODN.description ∈ getOtherODNDescriptions obs (some id)
             then 0 else 1)
           else newODN.quantity) ∧
      (processUpdatedObservation env pdn obs id oldODN newODN).pdn.must_be_unique =
        pdn.must_be_unique := by
  unfold processUpdatedObservation ProjectDataNumber.deleteObservation
    ProjectDataNumber.addObservation
  by_cases hde : newODN.deepEquals oldODN
  · right; left
    refine ⟨by simp [hde], by simp [hde], Or.inl ((deepEquals_iff _ _).mp hde)⟩
  · by_cases hp : env.projectFetchOk
    · by_cases hu : pdn.must_be_unique
      · by_cases hdesc : oldODN.description = newODN.description
        · right; left
          refine ⟨by simp [hde, hp, hu, hdesc], by simp [hde, hp, hu, hdesc],
            Or.inr ⟨hu, hdesc⟩⟩
        · by_cases hq : env.descQueryOk
          · by_cases hm1 : oldODN.description ∈
                getOtherODNDescriptions obs (some id)
            · by_cases hm2 : newODN.description ∈
                  getOtherODNDescriptions obs (some id)
              · right; right
                simp [hde, hp, hu, hdesc, hq, hm1, hm2]
              · by_cases hsave : env.saveOk
                · right; right
                  simp [hde, hp, hu, hdesc, hq, hm1, hm2, hsave]
                · left
                  simp [hde, hp, hu, hdesc, hq, hm1, hm2, hsave]
            · by_cases hm2 : newODN.description ∈
                  getOtherODNDescriptions obs (some id)
              · have hne : pdn.number ≠ pdn.number - 1 := by omega
                by_cases hsave : env.saveOk
                · right; right
                  simp [hde, hp, hu, hdesc, hq, hm1, hm2, hsave, hne]
                · left
                  simp [hde, hp, hu, hdesc, hq, hm1, hm2, hsave, hne]
              · right; right
                simp [hde, hp, hu, hdesc, hq, hm1, hm2]
          · left
            simp [hde, hp, hu, hdesc, hq]
      · by_cases hch : (pdn.number != pdn.number - oldODN.quantity +
            newODN.quantity) = true
        · by_cases hsave : env.saveOk
          · right; right
            simp [hde, hp, hu, hch, hsave]
          · left
            simp [hde, hp, hu, hch, hsave]
        · right; right
          simp [hde, hp, hu, hch]
    · left
      simp [hde, hp]

theorem stepObs_update_invariant (env : DataNumberEnv) {s s' : ProjectState}
    {id : String} {newODN : ObservationDataNumber}
    (hrun : stepObs env s (.update id newODN) = some s')
    (hinv : Invariant s) : Invariant s' := by
  simp only [stepObs] at hrun
  cases hfind : s.obs.find? (fun e => e.1 == id) with
  | none =>
    rw [hfind] at hrun
    simp at hrun
    exact hrun ▸ hinv
  | some entry =>
    obtain ⟨eid, oldODN⟩ := entry
    have heq : eid = id := by
      have := List.find?_some hfind
      simpa using this
    subst heq
    have hmem : (eid, oldODN) ∈ s.obs := List.mem_of_find?_eq_some hfind
    rw [hfind] at hrun
    simp only at hrun
    obtain ⟨hnum, hnd⟩ := hinv
    have hnd' : ((s.obs.map (fun e => if e.1 == eid then (eid, newODN) else e)).map
        Prod.fst).Nodup := by
      rw [keys_replace]; exact hnd
    have hmem' : (eid, newODN) ∈
        s.obs.map (fun e => if e.1 == eid then (eid, newODN) else e) :=
      mem_replace newODN hmem
    rcases processUpdated_cases env s.pdn s.obs eid oldODN newODN with
      ⟨hf, _⟩ | ⟨ht, hpdn, hcase⟩ | ⟨ht, hnum', hu'⟩
    · rw [hf] at hrun
      simp at hrun
      exact hrun ▸ ⟨hnum, hnd⟩
    · rw [if_pos ht] at hrun
      obtain rfl := Option.some.inj hrun
      refine ⟨?_, hnd'⟩
      show (processUpdatedObservation env s.pdn s.obs eid oldODN newODN).pdn.number =
        aggregate
          (processUpdatedObservation env s.pdn s.obs eid oldODN newODN).pdn.must_be_unique
          (s.obs.map (fun e => if e.1 == eid then (eid, newODN) else e))
      rw [hpdn, hnum]
      rcases hcase with rfl | ⟨hu, hdesc⟩
      · -- value-equal update: both aggregates decompose identically
        by_cases hu : s.pdn.must_be_unique = true
        · rw [hu, aggregate_true, aggregate_true,
            descSet_decomp hmem hnd, descSet_decomp hmem' hnd',
            filter_replace]
        · rw [Bool.not_eq_true] at hu
          rw [hu, aggregate_false, aggregate_false,
            qtySum_decomp hmem hnd, qtySum_decomp hmem' hnd',
            filter_replace]
      · rw [hu, aggregate_true, aggregate_true,
          descSet_decomp hmem hnd, descSet_decomp hmem' hnd',
          filter_replace, hdesc]
    · rw [if_pos ht] at hrun
      obtain rfl := Option.some.inj hrun
      refine ⟨?_, hnd'⟩
      show (processUpdatedObservation env s.pdn s.obs eid oldODN newODN).pdn.number =
        aggregate
          (processUpdatedObservation env s.pdn s.obs eid oldODN newODN).pdn.must_be_unique
          (s.obs.map (fun e => if e.1 == eid then (eid, newODN) else e))
      rw [hnum', hu', hnum]
      by_cases hu : s.pdn.must_be_unique = true
      · rw [hu, aggregate_true, aggregate_true, getOther_some,
          descSet_decomp hmem hnd, descSet_decomp hmem' hnd', filter_replace]
        simp only [eq_self_iff_true, if_true]
        set others :=
          ((s.obs.filter (fun e => !(e.1 == eid))).map
            (fun e => e.2.description)).toFinset with hothers
        by_cases hm1 : oldODN.description ∈ others
        · rw [if_pos hm1, Finset.insert_eq_self.mpr hm1]
          by_cases hm2 : newODN.description ∈ others
          · rw [if_pos hm2, Finset.insert_eq_self.mpr hm2]
            ring
          · rw [if_neg hm2, Finset.card_insert_of_not_mem hm2]
            push_cast
            ring
        · rw [if_neg hm1, Finset.card_insert_of_not_mem hm1]
          by_cases hm2 : newODN.description ∈ others
          · rw [if_pos hm2, Finset.insert_eq_self.mpr hm2]
            push_cast
            ring
          · rw [if_neg hm2, Finset.card_insert_of_not_mem hm2]
            push_cast
            ring
      · rw [Bool.not_eq_true] at hu
        rw [hu, aggregate_false, aggregate_false, if_neg (by simp),
          if_neg (by simp), qtySum_decomp hmem hnd, qtySum_decomp hmem' hnd',
          filter_replace]
        ring

/-- C1's transition theorem: every step of the observation lifecycle
preserves the derived-aggregate invariant. -/
theorem stepObs_invariant (env : DataNumberEnv) {s s' : ProjectState}
    {op : ObsOp} (hrun : stepObs env s op = some s')
    (hinv : Invariant s) : Invariant s' := by
  cases op with
  | create id odn => exact stepObs_create_invariant env hrun hinv
  | update id odn => exact stepObs_update_invariant env hrun hinv
  | delete id => exact stepObs_delete_invariant env hrun hinv

theorem runObs_invariant {s s' : ProjectState}
    (ops : List (DataNumberEnv × ObsOp))
    (hrun : runObs s ops = some s') (hinv : Invariant s) : Invariant s' := by
  induction ops generalizing s with
  | nil => simp [runObs] at hrun; exact hrun ▸ hinv
  | cons p rest ih =>
    obtain ⟨env, op⟩ := p
    simp only [runObs] at hrun
    cases hstep : stepObs env s op with
    | none => rw [hstep] at hrun; simp at hrun
    | some s₁ =>
      rw [hstep] at hrun
      exact ih hrun (stepObs_invariant env hstep hinv)

/-- C1: for every project whose counter initially agrees with its live
observations (as a fresh project with counter 0 does), after any sequence of
observation create, update, and delete operations — each running the
aggregate maintainer inside the operation's transaction, under any
per-operation environment — `project.data_number.number` equals the sum of
the live observations' `data_number.quantity` values when
`must_be_unique = false`, and the number of distinct `data_number.description`
values among the live observations when `must_be_unique = true`. -/
theorem data_number_aggregate_invariant
    (ops : List (DataNumberEnv × ObsOp)) (s s' : ProjectState)
    (hinv : Invariant s) (hrun : runObs s ops = some s') :
    (s'.pdn.must_be_unique = false →
      s'.pdn.number = (s'.obs.map (fun e => e.2.quantity)).sum) ∧
    (s'.pdn.must_be_unique = true →
      s'.pdn.number =
        ((s'.obs.map (fun e => e.2.description)).toFinset.card : Int)) := by
  have h := runObs_invariant ops hrun hinv
  obtain ⟨hnum, _⟩ := h
  constructor
  · intro hu
    rw [hnum, hu, aggregate_false]
  · intro hu
    rw [hnum, hu, aggregate_true]

/-- Witness for C1: the spec's Goldfinch scenario, run concretely. -/
theorem data_number_aggregate_invariant_witness :
    Invariant (⟨⟨"birds", 0, true⟩, []⟩ : ProjectState) ∧
    runObs ⟨⟨"birds", 0, true⟩, []⟩
        [(DataNumberEnv.ok, ObsOp.create "A" ⟨1, "Goldfinch"⟩),
         (DataNumberEnv.ok, ObsOp.create "B" ⟨3, "Goldfinch"⟩),
         (DataNumberEnv.ok, ObsOp.delete "A"),
         (DataNumberEnv.ok, ObsOp.delete "B")] =
      some ⟨⟨"birds", 0, true⟩, []⟩ ∧
    ((⟨⟨"birds", 0, true⟩, []⟩ : ProjectState).pdn.must_be_unique = true →
      (⟨⟨"birds", 0, true⟩, []⟩ : ProjectState).pdn.number =
        (((⟨⟨"birds", 0, true⟩, []⟩ : ProjectState).obs.map
          (fun e => e.2.description)).toFinset.card : Int)) :=
  ⟨by decide, by decide,
    (data_number_aggregate_invariant
      [(DataNumberEnv.ok, ObsOp.create "A" ⟨1, "Goldfinch"⟩),
       (DataNumberEnv.ok, ObsOp.create "B" ⟨3, "Goldfinch"⟩),
       (DataNumberEnv.ok, ObsOp.delete "A"),
       (DataNumberEnv.ok, ObsOp.delete "B")]
      ⟨⟨"birds", 0, true⟩, []⟩ ⟨⟨"birds", 0, true⟩, []⟩
      (by decide) (by decide)).2⟩

/-- C3 counterexample: for a `must_be_unique = false` project, an update whose
old and new `data_number` differ (the claim's "otherwise" case) succeeds
without ever fetching the other observations' descriptions — refuting the
claim that the otherwise-case always fetches them. -/
theorem processUpdated_no_fetch_counterexample :
    ObservationDataNumber.deepEquals ⟨2, "a"⟩ ⟨1, "a"⟩ = false ∧
    (⟨"n", 5, false⟩ : ProjectDataNumber).must_be_unique = false ∧
    (processUpdatedObservation DataNumberEnv.ok ⟨"n", 5, false⟩ [] "A"
      ⟨1, "a"⟩ ⟨2, "a"⟩).success = true ∧
    (processUpdatedObservation DataNumberEnv.ok ⟨"n", 5, false⟩ [] "A"
      ⟨1, "a"⟩ ⟨2, "a"⟩).fetchedDescriptions = false := by
  refine ⟨by decide, by decide, by decide, by decide⟩

/-- C3 (amended): for every observation update under a successful environment:
a value-equal patch is a no-op (nothing fetched, nothing persisted); when
`must_be_unique` and the description is unchanged it is a no-op without
fetching the other descriptions; otherwise the maintainer fetches the other
observations' descriptions (excluding the updated observation's id) exactly
when `must_be_unique` is true — not in the quantity-sum mode — removes the old
contribution, adds the new one, and persists the project iff the resulting
counter differs from its value before the update. -/
theorem processUpdatedObservation_behavior
    (env : DataNumberEnv) (pdn : ProjectDataNumber) (obs : ObsTable)
    (id : String) (oldODN newODN : ObservationDataNumber)
    (hp : env.projectFetchOk = true) (hq : env.descQueryOk = true)
    (hs : env.saveOk = true) :
    (newODN.deepEquals oldODN = true →
      processUpdatedObservation env pdn obs id oldODN newODN =
        ⟨true, pdn, false, false⟩) ∧
    (newODN.deepEquals oldODN = false → pdn.must_be_unique = true →
      oldODN.description = newODN.description →
      processUpdatedObservation env pdn obs id oldODN newODN =
        ⟨true, pdn, false, false⟩) ∧
    (newODN.deepEquals oldODN = false →
      ¬(pdn.must_be_unique = true ∧ oldODN.description = newODN.description) →
      (processUpdatedObservation env pdn obs id oldODN newODN).success = true ∧
      (processUpdatedObservation env pdn obs id oldODN newODN).fetchedDescriptions =
        pdn.must_be_unique ∧
      (processUpdatedObservation env pdn obs id oldODN newODN).pdn.number =
        pdn.number -
          (if pdn.must_be_unique then
            (if oldODN.description ∈ getOtherODNDescriptions obs (some id)
             then 0 else 1)
           else oldODN.quantity) +
          (if pdn.must_be_unique then
            (if newODN.description ∈ getOtherODNDescriptions obs (some id)
             then 0 else 1)
           else newODN.quantity) ∧
      ((processUpdatedObservation env pdn obs id oldODN newODN).persisted = true ↔
        (processUpdatedObservation env pdn obs id oldODN newODN).pdn.number ≠
          pdn.number)) := by
  refine ⟨?_, ?_, ?_⟩
  · intro hde
    simp [processUpdatedObservation, hde]
  · intro hde hu hdesc
    simp [processUpdatedObservation, hde, hp, hu, hdesc]
  · intro hde hnot
    by_cases hu : pdn.must_be_unique = true
    · have hdesc : ¬(oldODN.description = newODN.description) := by
        intro h; exact hnot ⟨hu, h⟩
      by_cases hm1 : oldODN.description ∈ getOtherODNDescriptions obs (some id)
      · by_cases hm2 : newODN.description ∈ getOtherODNDescriptions obs (some id)
        · simp [processUpdatedObservation, ProjectDataNumber.deleteObservation,
            ProjectDataNumber.addObservation, hde, hp, hq, hs, hu, hdesc, hm1, hm2]
        · simp [processUpdatedObservation, ProjectDataNumber.deleteObservation,
            ProjectDataNumber.addObservation, hde, hp, hq, hs, hu, hdesc, hm1, hm2]
      · by_cases hm2 : newODN.description ∈ getOtherODNDescriptions obs (some id)
        · have hne : pdn.number ≠ pdn.number - 1 := by omega
          simp [processUpdatedObservation, ProjectDataNumber.deleteObservation,
            ProjectDataNumber.addObservation, hde, hp, hq, hs, hu, hdesc, hm1,
            hm2, hne]
        · simp [processUpdatedObservation, ProjectDataNumber.deleteObservation,
            ProjectDataNumber.addObservation, hde, hp, hq, hs, hu, hdesc, hm1, hm2]
    · rw [Bool.not_eq_true] at hu
      have hred : processUpdatedObservation env pdn obs id oldODN newODN =
          (if pdn.number = pdn.number - oldODN.quantity + newODN.quantity
           then ⟨true, ⟨pdn.name, pdn.number - oldODN.quantity + newODN.quantity,
             false⟩, false, false⟩
           else ⟨true, ⟨pdn.name, pdn.number - oldODN.quantity + newODN.quantity,
             false⟩, true, false⟩) := by
        simp [processUpdatedObservation, ProjectDataNumber.deleteObservation,
          ProjectDataNumber.addObservation, hde, hp, hq, hs, hu]
      rw [hred]
      by_cases hch : pdn.number = pdn.number - oldODN.quantity + newODN.quantity
      · rw [if_pos hch]
        refine ⟨rfl, by simp [hu], by simp [hu], ?_⟩
        simp
        omega
      · rw [if_neg hch]
        refine ⟨rfl, by simp [hu], by simp [hu], ?_⟩
        simp
        omega

/-- Witness for the amended C3 theorem, at the counterexample's input. -/
theorem processUpdatedObservation_behavior_witness :
    DataNumberEnv.ok.projectFetchOk = true ∧
    (ObservationDataNumber.deepEquals ⟨2, "a"⟩ ⟨1, "a"⟩ = false →
      ¬((⟨"n", 5, false⟩ : ProjectDataNumber).must_be_unique = true ∧
        (⟨1, "a"⟩ : ObservationDataNumber).description =
          (⟨2, "a"⟩ : ObservationDataNumber).description) →
      (processUpdatedObservation DataNumberEnv.ok ⟨"n", 5, false⟩ [] "A"
        ⟨1, "a"⟩ ⟨2, "a"⟩).success = true ∧
      (processUpdatedObservation DataNumberEnv.ok ⟨"n", 5, false⟩ [] "A"
        ⟨1, "a"⟩ ⟨2, "a"⟩).fetchedDescriptions =
        (⟨"n", 5, false⟩ : ProjectDataNumber).must_be_unique ∧
      (processUpdatedObservation DataNumberEnv.ok ⟨"n", 5, false⟩ [] "A"
        ⟨1, "a"⟩ ⟨2, "a"⟩).pdn.number =
        (⟨"n", 5, false⟩ : ProjectDataNumber).number -
          (if (⟨"n", 5, false⟩ : ProjectDataNumber).must_be_unique then
            (if (⟨1, "a"⟩ : ObservationDataNumber).description ∈
                getOtherODNDescriptions [] (some "A") then 0 else 1)
           else (⟨1, "a"⟩ : ObservationDataNumber).quantity) +
          (if (⟨"n", 5, false⟩ : ProjectDataNumber).must_be_unique then
            (if (⟨2, "a"⟩ : ObservationDataNumber).description ∈
                getOtherODNDescriptions [] (some "A") then 0 else 1)
           else (⟨2, "a"⟩ : ObservationDataNumber).quantity) ∧
      ((processUpdatedObservation DataNumberEnv.ok ⟨"n", 5, false⟩ [] "A"
          ⟨1, "a"⟩ ⟨2, "a"⟩).persisted = true ↔
        (processUpdatedObservation DataNumberEnv.ok ⟨"n", 5, false⟩ [] "A"
          ⟨1, "a"⟩ ⟨2, "a"⟩).pdn.number ≠
          (⟨"n", 5, false⟩ : ProjectDataNumber).number)) :=
  ⟨rfl,
    (processUpdatedObservation_behavior DataNumberEnv.ok ⟨"n", 5, false⟩ []
      "A" ⟨1, "a"⟩ ⟨2, "a"⟩ rfl rfl rfl).2.2⟩

/-- C2 counterexample: a cascade in which one observation's image delete
fails (`storage.deleteImage` returns `false`) still returns success, with the
other blob deleted and both observation records deleted — a partial cascade
the enclosing transaction will happily commit. -/
theorem cascade_ignores_image_failure_counterexample :
    (CascadeEnv.mk true true true true (fun u => u == "u2")).imageDeleteOk "u1"
      = false ∧
    (deleteObservationsOfProject ⟨true, true, true, true, fun u => u == "u2"⟩
      [⟨"k1", "u1"⟩, ⟨"k2", "u2"⟩]).success = true ∧
    (deleteObservationsOfProject ⟨true, true, true, true, fun u => u == "u2"⟩
      [⟨"k1", "u1"⟩, ⟨"k2", "u2"⟩]).deletedImages = ["u2"] ∧
    (deleteObservationsOfProject ⟨true, true, true, true, fun u => u == "u2"⟩
      [⟨"k1", "u1"⟩, ⟨"k2", "u2"⟩]).deletedRecordKeys = ["k1", "k2"] :=
  ⟨rfl, rfl, rfl, rfl⟩

/-- C2 (amended): a cascade returns failure exactly when one of its own
Datastore calls (the projection query or the batch record delete) throws;
image-delete failures are swallowed — `storage.deleteImage` returns `false`
and both cascades ignore it — and `deleteProjectsOfTeacher` also ignores the
result of each per-project observation cascade, so a cascade can report
success while leaving blobs (or, for the teacher cascade, observation
records) behind. -/
theorem cascade_failure_policy (env : CascadeEnv) (obsRows : List ObsRow)
    (projRows : List ProjRow) :
    (deleteObservationsOfProject env obsRows).success =
      (env.obsQueryOk && env.obsDeleteOk) ∧
    (deleteProjectsOfTeacher env projRows).success =
      (env.projQueryOk && env.projDeleteOk) := by
  constructor
  · unfold deleteObservationsOfProject
    by_cases hq : env.obsQueryOk <;> by_cases hd : env.obsDeleteOk <;>
      simp [hq, hd]
  · unfold deleteProjectsOfTeacher
    by_cases hq : env.projQueryOk <;> by_cases hd : env.projDeleteOk <;>
      simp [hq, hd]

/-! ### Schema-validation characterization (`entity-type.js`) -/

theorem objGet_eq_none_iff (data : List (String × Value)) (name : String) :
    objGet data name = none ↔ ∀ kv ∈ data, kv.1 ≠ name := by
  unfold objGet
  cases hfind : data.find? (fun kv => kv.1 == name) with
  | none =>
    rw [List.find?_eq_none] at hfind
    simp only [true_iff]
    intro kv hkv
    have := hfind kv hkv
    simpa using this
  | some kv =>
    have hmem := List.mem_of_find?_eq_some hfind
    have hname : kv.1 = name := by simpa using List.find?_some hfind
    simp only [reduceCtorEq, false_iff, not_forall]
    exact ⟨kv, hmem, by simp [hname]⟩

theorem objGet_eq_some_iff {data : List (String × Value)} {name : String}
    {v : Value} (hnd : (data.map Prod.fst).Nodup) :
    objGet data name = some v ↔ (name, v) ∈ data := by
  constructor
  · intro h
    unfold objGet at h
    cases hfind : data.find? (fun kv => kv.1 == name) with
    | none => rw [hfind] at h; cases h
    | some kv =>
      rw [hfind] at h
      have hmem := List.mem_of_find?_eq_some hfind
      have hname : kv.1 = name := by simpa using List.find?_some hfind
      have hv : kv.2 = v := by simpa using h
      have : kv = (name, v) := by
        cases kv
        simp_all
      exact this ▸ hmem
  · intro hmem
    induction data with
    | nil => cases hmem
    | cons a t ih =>
      rw [List.map_cons, List.nodup_cons] at hnd
      rcases List.mem_cons.mp hmem with rfl | hmemt
      · unfold objGet
        simp [List.find?]
      · have hin : name ∈ t.map Prod.fst := by
          have := List.mem_map_of_mem Prod.fst hmemt
          simpa using this
        have hne : a.1 ≠ name := fun h => hnd.1 (h ▸ hin)
        unfold objGet at *
        rw [List.find?_cons_of_neg _ (by simpa using hne)]
        exact ih hnd.2 hmemt

/-- The property loop returns `none` iff some expected property is "bad":
required but absent, or present with a failing validator. -/
theorem validateLoop_eq_none_iff (data : List (String × Value))
    (props : List Property) (n : Nat) :
    validateLoop data props n = none ↔
      ∃ p ∈ props,
        (p.required = true ∧ objGet data p.name = none) ∨
        (∃ v, objGet data p.name = some v ∧ p.validator v = false) := by
  induction props generalizing n with
  | nil => simp [validateLoop]
  | cons p rest ih =>
    cases hget : objGet data p.name with
    | none =>
      cases hreq : p.required with
      | true => simp [validateLoop, hget, hreq]
      | false => simp [validateLoop, hget, hreq, ih]
    | some v =>
      cases hval : p.validator v with
      | true => simp [validateLoop, hget, hval, ih]
      | false =>
        simp [validateLoop, hget, hval]

/-- When the property loop finishes, its accumulator has counted exactly the
present expected properties. -/
theorem validateLoop_eq_some (data : List (String × Value))
    (props : List Property) (n m : Nat)
    (h : validateLoop data props n = some m) :
    m = n + props.countP (fun p => (objGet data p.name).isSome) := by
  induction props generalizing n with
  | nil =>
    simp [validateLoop] at h
    simp [h]
  | cons p rest ih =>
    cases hget : objGet data p.name with
    | none =>
      cases hreq : p.required with
      | true => simp [validateLoop, hget, hreq] at h
      | false =>
        rw [validateLoop, hget, if_neg (by simp [hreq])] at h
        rw [ih n h, List.countP_cons]
        simp [hget]
    | some v =>
      cases hval : p.validator v with
      | false => simp [validateLoop, hget, hval] at h
      | true =>
        simp only [validateLoop, hget, hval, if_true] at h
        rw [ih (n + 1) h, List.countP_cons]
        simp [hget]
        omega

/-- C7: schema validation fails iff a required property of the set is absent,
a present recognized property fails its validator, zero recognized properties
are present, or the data contains a property outside the set; otherwise it
passes.  (`data`'s keys are distinct, as JavaScript object keys are.) -/
theorem validateProperties_fails_iff (data : List (String × Value))
    (props : List Property) (hnd : (data.map Prod.fst).Nodup) :
    validateProperties data props = false ↔
      ((∃ p ∈ props, p.required = true ∧ ∀ kv ∈ data, kv.1 ≠ p.name) ∨
       (∃ p ∈ props, ∃ kv ∈ data, kv.1 = p.name ∧ p.validator kv.2 = false) ∨
       (∀ p ∈ props, ∀ kv ∈ data, kv.1 ≠ p.name) ∨
       (∃ kv ∈ data, ∀ p ∈ props, p.name ≠ kv.1)) := by
  unfold validateProperties
  cases hloop : validateLoop data props 0 with
  | none =>
    simp only [true_iff]
    rw [validateLoop_eq_none_iff] at hloop
    obtain ⟨p, hp, hbad⟩ := hloop
    rcases hbad with ⟨hreq, hnone⟩ | ⟨v, hsome, hval⟩
    · exact Or.inl ⟨p, hp, hreq, (objGet_eq_none_iff _ _).mp hnone⟩
    · refine Or.inr (Or.inl ⟨p, hp, (p.name, v), ?_, rfl, hval⟩)
      exact (objGet_eq_some_iff hnd).mp hsome
  | some m =>
    have hcount := validateLoop_eq_some data props 0 m hloop
    have hnobad : ¬ ∃ p ∈ props,
        ((p.required = true ∧ objGet data p.name = none) ∨
         ∃ v, objGet data p.name = some v ∧ p.validator v = false) := by
      rw [← validateLoop_eq_none_iff data props 0, hloop]
      simp
    by_cases hm : m < 1
    · simp only [if_pos hm, true_iff]
      have hc0 : props.countP (fun p => (objGet data p.name).isSome) = 0 := by
        omega
      rw [List.countP_eq_zero] at hc0
      refine Or.inr (Or.inr (Or.inl ?_))
      intro p hp kv hkv
      have : objGet data p.name = none := by
        have := hc0 p hp
        cases h : objGet data p.name with
        | none => rfl
        | some v => rw [h] at this; simp at this
      exact (objGet_eq_none_iff _ _).mp this kv hkv
    · simp only [if_neg hm]
      have hpresent : ∃ p ∈ props, (objGet data p.name).isSome = true := by
        rw [← List.countP_pos_iff]
        omega
      constructor
      · intro h
        rw [← Bool.not_eq_true, List.all_eq_true] at h
        push_neg at h
        obtain ⟨kv, hkv, hne⟩ := h
        refine Or.inr (Or.inr (Or.inr ⟨kv, hkv, ?_⟩))
        intro p hp
        have hempty : (props.filter (fun prop => prop.name == kv.1)) = [] := by
          cases hfe : props.filter (fun prop => prop.name == kv.1) with
          | nil => rfl
          | cons a t => rw [hfe] at hne; simp at hne
        intro heq
        have : p ∈ props.filter (fun prop => prop.name == kv.1) :=
          List.mem_filter.mpr ⟨hp, by simp [heq]⟩
        rw [hempty] at this
        cases this
      · intro h
        rcases h with ⟨p, hp, hreq, habs⟩ | ⟨p, hp, kv, hkv, heq, hval⟩ | hC | ⟨kv, hkv, hD⟩
        · exact absurd ⟨p, hp, Or.inl ⟨hreq, (objGet_eq_none_iff _ _).mpr habs⟩⟩
            hnobad
        · have hget : objGet data p.name = some kv.2 := by
            rw [objGet_eq_some_iff hnd]
            have : kv = (p.name, kv.2) := by
              cases kv; simp_all
            exact this ▸ hkv
          exact absurd ⟨p, hp, Or.inr ⟨kv.2, hget, hval⟩⟩ hnobad
        · obtain ⟨p, hp, hsome⟩ := hpresent
          cases hgp : objGet data p.name with
          | none => rw [hgp] at hsome; simp at hsome
          | some v =>
            have hmem := (objGet_eq_some_iff hnd).mp hgp
            exact absurd rfl (hC p hp (p.name, v) hmem)
        · rw [← Bool.not_eq_true, List.all_eq_true]
          push_neg
          refine ⟨kv, hkv, ?_⟩
          cases hfe : props.filter (fun prop => prop.name == kv.1) with
          | nil => simp
          | cons a t =>
            have ha : a ∈ props.filter (fun prop => prop.name == kv.1) := by
              rw [hfe]; exact List.mem_cons_self a t
            have := List.mem_filter.mp ha
            have : a.name = kv.1 := by simpa using this.2
            exact absurd this (hD a (List.mem_filter.mp ha).1)

/-- Witness for C7: a credential-create body whose present `password` fails
its validator is rejected. -/
theorem validateProperties_fails_iff_witness :
    (([("password", Value.str "abc")] :
        List (String × Value)).map Prod.fst).Nodup ∧
    (validateProperties [("password", Value.str "abc")]
        credentialCreateProperties = false ↔
      ((∃ p ∈ credentialCreateProperties, p.required = true ∧
          ∀ kv ∈ [("password", Value.str "abc")], kv.1 ≠ p.name) ∨
       (∃ p ∈ credentialCreateProperties,
          ∃ kv ∈ [("password", Value.str "abc")],
            kv.1 = p.name ∧ p.validator kv.2 = false) ∨
       (∀ p ∈ credentialCreateProperties,
          ∀ kv ∈ [("password", Value.str "abc")], kv.1 ≠ p.name) ∨
       (∃ kv ∈ [("password", Value.str "abc")],
          ∀ p ∈ credentialCreateProperties, p.name ≠ kv.1))) :=
  ⟨by decide,
    validateProperties_fails_iff [("password", Value.str "abc")]
      credentialCreateProperties (by decide)⟩

/-- A present property whose validator rejects its value makes
`validateProperties` fail. -/
theorem validateProperties_false_of_bad_value {data : List (String × Value)}
    {props : List Property} {name : String} {v : Value}
    (hnd : (data.map Prod.fst).Nodup) (hmem : (name, v) ∈ data)
    (hp : ∃ p ∈ props, p.name = name ∧ p.validator v = false) :
    validateProperties data props = false := by
  unfold validateProperties
  have hloop : validateLoop data props 0 = none := by
    rw [validateLoop_eq_none_iff]
    obtain ⟨p, hpp, hpname, hval⟩ := hp
    refine ⟨p, hpp, Or.inr ⟨v, ?_, hval⟩⟩
    rw [hpname]
    exact (objGet_eq_some_iff hnd).mpr hmem
  rw [hloop]

/-- C10: the password validator accepts a value iff it is a string of length
8–16 whose characters are all ASCII letters or digits, and any
teacher-creation or password-change body whose `password` is any other value
fails schema validation (against the teacher create set and the credential
create/update sets). -/
theorem password_validator_spec (v : Value) (body : List (String × Value))
    (hnd : (body.map Prod.fst).Nodup) :
    (VALIDATE_PASSWORD v = true ↔
      ∃ s, v = Value.str s ∧ 8 ≤ s.length ∧ s.length ≤ 16 ∧
        ∀ c ∈ s.toList,
          (('A' ≤ c ∧ c ≤ 'Z') ∨ ('a' ≤ c ∧ c ≤ 'z') ∨
           ('0' ≤ c ∧ c ≤ '9'))) ∧
    (("password", v) ∈ body → VALIDATE_PASSWORD v = false →
      validateProperties body teachersCreateProperties = false ∧
      validateProperties body credentialCreateProperties = false ∧
      validateProperties body credentialUpdateProperties = false) := by
  constructor
  · cases v with
    | str s =>
      simp only [VALIDATE_PASSWORD]
      by_cases hlen : s.length < 8 || 16 < s.length
      · rw [if_pos hlen]
        simp only [Bool.or_eq_true, decide_eq_true_eq] at hlen
        simp only [reduceCtorEq, false_iff, not_exists]
        rintro s' ⟨heq, h8, h16, _⟩
        have : s = s' := by injection heq
        subst this
        omega
      · rw [if_neg hlen]
        simp only [Bool.or_eq_true, decide_eq_true_eq, not_or, not_lt] at hlen
        rw [List.all_eq_true]
        constructor
        · intro h
          refine ⟨s, rfl, by omega, by omega, fun c hc => ?_⟩
          have := h c hc
          have h2 : ('A' ≤ c ∧ c ≤ 'Z' ∨ 'a' ≤ c ∧ c ≤ 'z') ∨
              '0' ≤ c ∧ c ≤ '9' := by
            simpa [isPasswordChar, decide_eq_true_eq] using this
          tauto
        · rintro ⟨s', heq, h8, h16, hall⟩
          have : s = s' := by injection heq
          subst this
          intro c hc
          have := hall c hc
          have h2 : ('A' ≤ c ∧ c ≤ 'Z' ∨ 'a' ≤ c ∧ c ≤ 'z') ∨
              '0' ≤ c ∧ c ≤ '9' := by tauto
          simpa [isPasswordChar, decide_eq_true_eq] using h2
    | num n => simp [VALIDATE_PASSWORD]
    | bool b => simp [VALIDATE_PASSWORD]
    | null => simp [VALIDATE_PASSWORD]
    | obj fields => simp [VALIDATE_PASSWORD]
  · intro hmem hval
    refine ⟨?_, ?_, ?_⟩
    · exact validateProperties_false_of_bad_value hnd hmem
        ⟨⟨"password", VALIDATE_PASSWORD, true⟩,
          List.mem_cons_of_mem _ (List.mem_cons_of_mem _
            (List.mem_cons_of_mem _ (List.mem_cons_self _ _))),
          rfl, hval⟩
    · exact validateProperties_false_of_bad_value hnd hmem
        ⟨⟨"password", VALIDATE_PASSWORD, true⟩, List.mem_cons_self _ _,
          rfl, hval⟩
    · exact validateProperties_false_of_bad_value hnd hmem
        ⟨⟨"password", VALIDATE_PASSWORD, false⟩, List.mem_cons_self _ _,
          rfl, hval⟩

/-- Witness for C10 at a concrete invalid password (`"pass word!"`). -/
theorem password_validator_spec_witness :
    ((([("password", Value.str "pass word!")] :
        List (String × Value)).map Prod.fst).Nodup) ∧
    ((VALIDATE_PASSWORD (Value.str "pass word!") = true ↔
      ∃ s, Value.str "pass word!" = Value.str s ∧ 8 ≤ s.length ∧
        s.length ≤ 16 ∧
        ∀ c ∈ s.toList,
          (('A' ≤ c ∧ c ≤ 'Z') ∨ ('a' ≤ c ∧ c ≤ 'z') ∨
           ('0' ≤ c ∧ c ≤ '9'))) ∧
    (("password", Value.str "pass word!") ∈
        ([("password", Value.str "pass word!")] : List (String × Value)) →
      VALIDATE_PASSWORD (Value.str "pass word!") = false →
      validateProperties [("password", Value.str "pass word!")]
        teachersCreateProperties = false ∧
      validateProperties [("password", Value.str "pass word!")]
        credentialCreateProperties = false ∧
      validateProperties [("password", Value.str "pass word!")]
        credentialUpdateProperties = false)) :=
  ⟨by decide,
    password_validator_spec (Value.str "pass word!")
      [("password", Value.str "pass word!")] (by decide)⟩

/-- C9: when decryption inverts encryption, `passwordsMatch`,
`secretQuestionsMatch` and `resetCodeValid` leave the stored secret content
unchanged up to decryption — each decrypts, compares and re-encrypts, so the
decrypted value of every stored field is the same before and after the call
and the touched fields are back in encrypted form. -/
theorem credential_verification_preserves_secrets (env : CryptoEnv)
    (hrt : ∀ s, env.dec (env.enc s) = s) (c : CredentialData) (pw : String)
    (sq : SecretQuestions) (code : String) :
    (decryptPassword env (passwordsMatch env c pw).2 = decryptPassword env c ∧
     (passwordsMatch env c pw).2.password = env.enc (env.dec c.password)) ∧
    (decryptSecretQuestions env (secretQuestionsMatch env c sq).2 =
        decryptSecretQuestions env c ∧
     (secretQuestionsMatch env c sq).2.secret_questions =
       ⟨env.enc (env.dec c.secret_questions.question_1),
        env.enc (env.dec c.secret_questions.question_2),
        env.enc (env.dec c.secret_questions.answer_1),
        env.enc (env.dec c.secret_questions.answer_2)⟩) ∧
    (decryptResetCode env (resetCodeValid env c code).2 =
        decryptResetCode env c ∧
     (resetCodeValid env c code).2.reset_code =
       ⟨env.enc (env.dec c.reset_code.code),
        env.enc (env.dec c.reset_code.expires)⟩) := by
  obtain ⟨p, ⟨q1, q2, a1, a2⟩, ⟨rc, re⟩⟩ := c
  refine ⟨⟨?_, ?_⟩, ⟨?_, ?_⟩, ⟨?_, ?_⟩⟩ <;>
    simp [passwordsMatch, secretQuestionsMatch, resetCodeValid,
      decryptPassword, encryptPassword, decryptSecretQuestions,
      encryptSecretQuestions, decryptResetCode, encryptResetCode, hrt]

/-- Witness for C9 with the identity cipher on a concrete credential. -/
theorem credential_verification_preserves_secrets_witness :
    (∀ s, (CryptoEnv.mk id id 0 "x").dec ((CryptoEnv.mk id id 0 "x").enc s) = s) ∧
    decryptPassword (CryptoEnv.mk id id 0 "x")
        (passwordsMatch (CryptoEnv.mk id id 0 "x")
          ⟨"p", ⟨"a", "b", "c", "d"⟩, ⟨"e", "f"⟩⟩ "z").2 =
      decryptPassword (CryptoEnv.mk id id 0 "x")
        ⟨"p", ⟨"a", "b", "c", "d"⟩, ⟨"e", "f"⟩⟩ :=
  ⟨fun _ => rfl,
    (credential_verification_preserves_secrets (CryptoEnv.mk id id 0 "x")
      (fun _ => rfl) ⟨"p", ⟨"a", "b", "c", "d"⟩, ⟨"e", "f"⟩⟩ "z"
      ⟨"a", "b", "c", "d"⟩ "e").1.1⟩

/-- A header `"Basic " ++ payload` splits at its first space into the scheme
and the payload. -/
theorem splitAtFirstSpace_basic (p : String) :
    splitAtFirstSpace (("Basic " ++ p).toList) =
      some ("Basic".toList, p.toList) := by
  have h : ("Basic " ++ p).toList = 'B' :: 'a' :: 's' :: 'i' :: 'c' :: ' ' :: p.toList := rfl
  rw [h]
  simp [splitAtFirstSpace]

/-- C4: when the well-formed credential header's id differs from the expected
owner id, `validateAuthHeader` answers 403 Forbidden — never 401 — for every
password or reset code supplied and before any password or reset-code
verification (the conclusion holds for every credential and for both values
of `useResetCode`). -/
theorem auth_ownership_forbidden (env : CryptoEnv) (decode : String → String)
    (store : Option CredentialData) (payload : String)
    (idReceived pwReceived : String) (idExpected : String)
    (cred : Option CredentialData) (useResetCode : Bool)
    (hsplit : splitColon (decode payload) = [idReceived, pwReceived])
    (hne : idReceived ≠ idExpected) :
    (validateAuthHeader env decode store (some ("Basic " ++ payload))
        (some idExpected) cred useResetCode).response =
      some ⟨403,
        some "The teacher whose authorization credentials were provided does not own this resource."⟩ := by
  unfold validateAuthHeader
  dsimp only
  rw [splitAtFirstSpace_basic]
  dsimp only
  have h1 : ¬(("Basic".toList : List Char) = []) := by decide
  have h2 : (String.mk ("Basic".toList) != "Basic") = false := by decide
  rw [if_neg h1, h2]
  simp only [Bool.false_eq_true, if_false]
  have hmk : ({ data := payload.toList } : String) = payload := rfl
  rw [hmk, hsplit]
  have h3 : (idReceived != idExpected) = true := by
    simp [hne]
  simp [h3]

/-- Witness for C4: teacher 2's header against teacher 1's resource. -/
theorem auth_ownership_forbidden_witness :
    (splitColon "2:pw" = ["2", "pw"]) ∧ ("2" : String) ≠ "1" ∧
    (validateAuthHeader (CryptoEnv.mk id id 0 "x") id none
        (some ("Basic " ++ "2:pw")) (some "1") none false).response =
      some ⟨403,
        some "The teacher whose authorization credentials were provided does not own this resource."⟩ :=
  ⟨by decide, by decide,
    auth_ownership_forbidden (CryptoEnv.mk id id 0 "x") id none "2:pw" "2"
      "pw" "1" none false (by decide) (by decide)⟩

/-- With the parse facts in hand, `validateAuthHeader` reduces to the
password / reset-code check on the resolved credential. -/
theorem validateAuthHeader_check (env : CryptoEnv) (decode : String → String)
    (store : Option CredentialData) (a : String) (pre post : List Char)
    (idR pwR tidExp : String) (cred : CredentialData) (flag : Bool)
    (hsp : splitAtFirstSpace a.toList = some (pre, post))
    (hpre : ¬(pre = []))
    (hbasic : (String.mk pre != "Basic") = false)
    (hsplit : splitColon (decode (String.mk post)) = [idR, pwR])
    (hown : (idR != tidExp) = false) :
    validateAuthHeader env decode store (some a) (some tidExp) (some cred) flag =
      (if flag then
        (if (resetCodeValid env cred pwR).1 then
          ⟨none, some (resetCodeValid env cred pwR).2⟩
         else
          ⟨some ⟨401, some "The reset code provided is incorrect and/or expired."⟩,
            some (resetCodeValid env cred pwR).2⟩)
       else
        (if (passwordsMatch env cred pwR).1 then
          ⟨none, some (passwordsMatch env cred pwR).2⟩
         else
          ⟨some ⟨401, some "The password provided is incorrect."⟩,
            some (passwordsMatch env cred pwR).2⟩)) := by
  unfold validateAuthHeader
  dsimp only
  rw [hsp]
  dsimp only
  rw [if_neg hpre, hbasic]
  simp only [Bool.false_eq_true, if_false]
  rw [hsplit]
  dsimp only
  rw [hown]
  simp only [Bool.false_eq_true, if_false]

/-- An authorized `validateAuthHeader` call yields the parse facts: the
header split at its first space into a non-empty `Basic` scheme, the decoded
payload split at its one colon, and the received id matched the expected
owner. -/
theorem validateAuthHeader_none_inv (env : CryptoEnv) (decode : String → String)
    (store : Option CredentialData) (a : String) (tidExp : String)
    (cred : CredentialData) (flag : Bool)
    (h : (validateAuthHeader env decode store (some a) (some tidExp)
      (some cred) flag).response = none) :
    ∃ pre post idR pwR,
      splitAtFirstSpace a.toList = some (pre, post) ∧ ¬(pre = []) ∧
      (String.mk pre != "Basic") = false ∧
      splitColon (decode (String.mk post)) = [idR, pwR] ∧
      (idR != tidExp) = false := by
  unfold validateAuthHeader at h
  dsimp only at h
  cases hsp : splitAtFirstSpace a.toList with
  | none => rw [hsp] at h; simp at h
  | some pp =>
    obtain ⟨pre, post⟩ := pp
    rw [hsp] at h
    dsimp only at h
    by_cases hpre : pre = []
    · rw [if_pos hpre] at h; simp at h
    · rw [if_neg hpre] at h
      cases hb : (String.mk pre != "Basic") with
      | true => rw [hb] at h; simp at h
      | false =>
        rw [hb] at h
        simp only [Bool.false_eq_true, if_false] at h
        cases hsc : splitColon (decode (String.mk post)) with
        | nil => rw [hsc] at h; simp at h
        | cons x xs =>
          cases xs with
          | nil => rw [hsc] at h; simp at h
          | cons y ys =>
            cases ys with
            | cons z zs => rw [hsc] at h; simp at h
            | nil =>
              rw [hsc] at h
              dsimp only at h
              cases hown : (x != tidExp) with
              | true => rw [hown] at h; simp at h
              | false => exact ⟨pre, post, x, y, rfl, hpre, hb, hsc, hown⟩

/-- `resetUnknownPassword` commits a credential only through its success
branch, which stores the new password and a cleared, re-encrypted reset
code. -/
theorem resetUnknownPassword_saved_inv (env : CryptoEnv)
    (decode : String → String) (body : List (String × Value)) (tid : String)
    (a : Option String) (tex : Bool) (cred cred' : CredentialData)
    (h2 : (resetUnknownPassword env decode body tid a tex (some cred)).2 =
      some cred') :
    ∃ c₀, cred' = clearResetCode env c₀ ∧
      (validateAuthHeader env decode none a (some tid) (some cred)
        true).response = none := by
  unfold resetUnknownPassword at h2
  by_cases hv : validateProperties body credentialCreateProperties = false
  · rw [if_pos hv] at h2; simp at h2
  · rw [if_neg hv] at h2
    cases tex with
    | false => simp at h2
    | true =>
      simp only [Bool.not_true, Bool.false_eq_true, if_false] at h2
      cases hresp : (validateAuthHeader env decode none a (some tid)
          (some cred) true).response with
      | some r => rw [hresp] at h2; simp at h2
      | none =>
        rw [hresp] at h2
        dsimp only at h2
        cases hcred1 : (validateAuthHeader env decode none a (some tid)
            (some cred) true).credential with
        | none => rw [hcred1] at h2; simp at h2
        | some cred1 =>
          rw [hcred1] at h2
          dsimp only at h2
          split at h2
          · split at h2
            · simp at h2
            · split at h2
              · simp at h2
              · split at h2
                · simp at h2
                · simp at h2
                  exact ⟨_, h2.symm, rfl⟩
          · simp at h2

/-- A credential whose stored reset code was cleared (and re-encrypted)
never validates: its decrypted expiry is the empty string, which
`parseInt` cannot parse. -/
theorem resetCodeValid_cleared (env2 env : CryptoEnv)
    (hdec : env2.dec = env.dec) (hrt : ∀ s, env.dec (env.enc s) = s)
    (c : CredentialData) (hc : c.reset_code = ⟨env.enc "", env.enc ""⟩)
    (x : String) : (resetCodeValid env2 c x).1 = false := by
  have hparse : parseDecimal? "" = none := rfl
  simp [resetCodeValid, decryptResetCode, ResetCode.isUnexpired, hc, hdec,
    hrt, hparse]

/-- A reset code whose decrypted expiry timestamp is at or before the
current time never validates. -/
theorem resetCodeValid_expired (env : CryptoEnv) (c : CredentialData)
    (t : Int) (hparse : parseDecimal? (env.dec c.reset_code.expires) = some t)
    (hexp : t ≤ env.now) (x : String) : (resetCodeValid env c x).1 = false := by
  have hlt : ¬(env.now < t) := by omega
  simp [resetCodeValid, decryptResetCode, ResetCode.isUnexpired, hparse, hlt]

/-- C5: a credential's reset code is single-use and time-limited.  First
conjunct (single use): a successful `resetUnknownPassword` stores a cleared
reset code, so replaying the same authorization header (same code) against
the saved credential — at any later time, under the same decryption
function — fails with 401 Unauthenticated.  Second conjunct (expiry): a reset attempt at or after
the stored code's expiry time fails with 401 Unauthenticated. -/
theorem reset_code_single_use_and_expiry
    (env env2 : CryptoEnv) (decode : String → String)
    (body body2 : List (String × Value)) (tid : String) (a : String)
    (tex : Bool) (cred cred' : CredentialData) (payload codeR : String)
    (t : Int)
    (hdec : env2.dec = env.dec)
    (hrt : ∀ s, env.dec (env.enc s) = s) :
    ((resetUnknownPassword env decode body tid (some a) tex
        (some cred)).1.status = 204 →
      (resetUnknownPassword env decode body tid (some a) tex
        (some cred)).2 = some cred' →
      validateProperties body2 credentialCreateProperties = true →
      (resetUnknownPassword env2 decode body2 tid (some a) true
        (some cred')).1.status = 401) ∧
    (splitColon (decode payload) = [tid, codeR] →
      validateProperties body2 credentialCreateProperties = true →
      parseDecimal? (env.dec cred.reset_code.expires) = some t →
      t ≤ env.now →
      (resetUnknownPassword env decode body2 tid
        (some ("Basic " ++ payload)) true (some cred)).1.status = 401) := by
  constructor
  · intro _ h2 hb2
    obtain ⟨c₀, rfl, hresp⟩ := resetUnknownPassword_saved_inv env decode body
      tid (some a) tex cred cred' h2
    obtain ⟨pre, post, idR, pwR, hsp, hpre, hb, hsc, hown⟩ :=
      validateAuthHeader_none_inv env decode none a tid cred true hresp
    unfold resetUnknownPassword
    rw [if_neg (by simp [hb2])]
    dsimp only
    rw [validateAuthHeader_check env2 decode none a pre post idR pwR tid
      (clearResetCode env c₀) true hsp hpre hb hsc hown]
    have hfalse : (resetCodeValid env2 (clearResetCode env c₀) pwR).1 = false :=
      resetCodeValid_cleared env2 env hdec hrt _ rfl pwR
    rw [if_pos rfl, hfalse]
    simp
  · intro hsplit hb2 hparse hexp
    unfold resetUnknownPassword
    rw [if_neg (by simp [hb2])]
    dsimp only
    have hsc : splitColon (decode (String.mk payload.toList)) = [tid, codeR] := by
      have hmk : (String.mk payload.toList) = payload := rfl
      rw [hmk]
      exact hsplit
    rw [validateAuthHeader_check env decode none ("Basic " ++ payload)
      "Basic".toList payload.toList tid codeR tid cred true
      (splitAtFirstSpace_basic payload) (by decide) (by decide) hsc (by simp)]
    have hfalse : (resetCodeValid env cred codeR).1 = false :=
      resetCodeValid_expired env cred t hparse hexp codeR
    rw [if_pos rfl, hfalse]
    simp

/-- Witness for C5: the spec's scenario, concretely — a reset succeeds once;
replaying the same code fails; an attempt past the expiry fails. -/
theorem reset_code_single_use_and_expiry_witness :
    ((CryptoEnv.mk id id 5000 "f2").dec = (CryptoEnv.mk id id 0 "fresh").dec) ∧
    (resetUnknownPassword (CryptoEnv.mk id id 0 "fresh") id
      [("password", Value.str "NewPass456"),
       ("secret_questions", Value.obj
         [("question_1", Value.str "q1"), ("question_2", Value.str "q2"),
          ("answer_1", Value.str "a1"), ("answer_2", Value.str "a2")])]
      "7" (some "Basic 7:code123") true
      (some ⟨"OldPass123", ⟨"q1", "q2", "a1", "a2"⟩,
        ⟨"code123", "1000"⟩⟩)).1.status = 204 ∧
    (resetUnknownPassword (CryptoEnv.mk id id 5000 "f2") id
      [("password", Value.str "NewPass456"),
       ("secret_questions", Value.obj
         [("question_1", Value.str "q1"), ("question_2", Value.str "q2"),
          ("answer_1", Value.str "a1"), ("answer_2", Value.str "a2")])]
      "7" (some "Basic 7:code123") true
      (some ⟨"NewPass456", ⟨"q1", "q2", "a1", "a2"⟩, ⟨"", ""⟩⟩)).1.status
      = 401 ∧
    (resetUnknownPassword (CryptoEnv.mk id id 2000 "f") id
      [("password", Value.str "NewPass456"),
       ("secret_questions", Value.obj
         [("question_1", Value.str "q1"), ("question_2", Value.str "q2"),
          ("answer_1", Value.str "a1"), ("answer_2", Value.str "a2")])]
      "7" (some ("Basic " ++ "7:code123")) true
      (some ⟨"OldPass123", ⟨"q1", "q2", "a1", "a2"⟩,
        ⟨"code123", "1000"⟩⟩)).1.status = 401 := by
  refine ⟨rfl, by decide, ?_, ?_⟩
  · exact (reset_code_single_use_and_expiry
      (CryptoEnv.mk id id 0 "fresh") (CryptoEnv.mk id id 5000 "f2") id
      [("password", Value.str "NewPass456"),
       ("secret_questions", Value.obj
         [("question_1", Value.str "q1"), ("question_2", Value.str "q2"),
          ("answer_1", Value.str "a1"), ("answer_2", Value.str "a2")])]
      [("password", Value.str "NewPass456"),
       ("secret_questions", Value.obj
         [("question_1", Value.str "q1"), ("question_2", Value.str "q2"),
          ("answer_1", Value.str "a1"), ("answer_2", Value.str "a2")])]
      "7" "Basic 7:code123" true
      ⟨"OldPass123", ⟨"q1", "q2", "a1", "a2"⟩, ⟨"code123", "1000"⟩⟩
      ⟨"NewPass456", ⟨"q1", "q2", "a1", "a2"⟩, ⟨"", ""⟩⟩
      "7:code123" "code123" 1000 rfl (fun _ => rfl)).1
      (by decide) (by decide) (by decide)
  · exact (reset_code_single_use_and_expiry
      (CryptoEnv.mk id id 2000 "f") (CryptoEnv.mk id id 2000 "f") id
      [("password", Value.str "NewPass456"),
       ("secret_questions", Value.obj
         [("question_1", Value.str "q1"), ("question_2", Value.str "q2"),
          ("answer_1", Value.str "a1"), ("answer_2", Value.str "a2")])]
      [("password", Value.str "NewPass456"),
       ("secret_questions", Value.obj
         [("question_1", Value.str "q1"), ("question_2", Value.str "q2"),
          ("answer_1", Value.str "a1"), ("answer_2", Value.str "a2")])]
      "7" "unused" true
      ⟨"OldPass123", ⟨"q1", "q2", "a1", "a2"⟩, ⟨"code123", "1000"⟩⟩
      ⟨"NewPass456", ⟨"q1", "q2", "a1", "a2"⟩, ⟨"", ""⟩⟩
      "7:code123" "code123" 1000 rfl (fun _ => rfl)).2
      (by decide) (by decide) (by decide) (by decide)

/-- When validation passes, every required property is present with a value
its validator accepts. -/
theorem validateProperties_required_present {data : List (String × Value)}
    {props : List Property}
    (hv : validateProperties data props = true) {p : Property}
    (hp : p ∈ props) (hreq : p.required = true) :
    ∃ v, objGet data p.name = some v ∧ p.validator v = true := by
  have hnone : validateLoop data props 0 ≠ none := by
    intro hl
    unfold validateProperties at hv
    rw [hl] at hv
    cases hv
  rw [Ne, validateLoop_eq_none_iff] at hnone
  push_neg at hnone
  have h1 := hnone p hp
  cases hget : objGet data p.name with
  | none => exact absurd hget (h1.1 hreq)
  | some v =>
    refine ⟨v, rfl, ?_⟩
    by_cases hval : p.validator v = true
    · exact hval
    · have hf : p.validator v = false := by simpa using hval
      exact absurd hf (h1.2 v hget)

/-- A value accepted by the password validator is a string. -/
theorem VALIDATE_PASSWORD_isStr {v : Value}
    (h : VALIDATE_PASSWORD v = true) : ∃ s, v = Value.str s := by
  cases v with
  | str s => exact ⟨s, rfl⟩
  | num n => simp [VALIDATE_PASSWORD] at h
  | bool b => simp [VALIDATE_PASSWORD] at h
  | null => simp [VALIDATE_PASSWORD] at h
  | obj fields => simp [VALIDATE_PASSWORD] at h

/-- A value accepted by the secret-questions validator yields a
`SecretQuestions`. -/
theorem sqOfValue_isSome_of_valid {v : Value}
    (h : VALIDATE_SECRET_QUESTIONS v = true) :
    ∃ sq, sqOfValue v = some sq := by
  cases v with
  | obj fields =>
    unfold VALIDATE_SECRET_QUESTIONS at h
    dsimp only at h
    by_cases hl : (fields.length != 4) = true
    · rw [if_pos hl] at h; cases h
    · rw [if_neg hl] at h
      split at h
      · rename_i q1 q2 a1 a2 h1 h2 h3 h4
        unfold sqOfValue
        dsimp only
        rw [h1, h2, h3, h4]
        exact ⟨_, rfl⟩
      · cases h
  | str s => simp [VALIDATE_SECRET_QUESTIONS] at h
  | num n => simp [VALIDATE_SECRET_QUESTIONS] at h
  | bool b => simp [VALIDATE_SECRET_QUESTIONS] at h
  | null => simp [VALIDATE_SECRET_QUESTIONS] at h

/-- C6 counterexample: with a valid teacher body, a successful teacher save
and commit but a failing credential save, `postEntity` reports 500 with the
Teacher persisted and no Credential — refuting "both or neither". -/
theorem teacher_without_credential_counterexample :
    (postTeacher (CryptoEnv.mk id id 0 "x") true true false
      [("name", Value.str "Ada"), ("email", Value.str "ada@school.edu"),
       ("school", Value.str "OSU"), ("password", Value.str "Relativity1"),
       ("secret_questions", Value.obj
         [("question_1", Value.str "q1"), ("question_2", Value.str "q2"),
          ("answer_1", Value.str "a1"), ("answer_2", Value.str "a2")])]).status
      = 500 ∧
    (postTeacher (CryptoEnv.mk id id 0 "x") true true false
      [("name", Value.str "Ada"), ("email", Value.str "ada@school.edu"),
       ("school", Value.str "OSU"), ("password", Value.str "Relativity1"),
       ("secret_questions", Value.obj
         [("question_1", Value.str "q1"), ("question_2", Value.str "q2"),
          ("answer_1", Value.str "a1"), ("answer_2", Value.str "a2")])]).teacher.isSome
      = true ∧
    (postTeacher (CryptoEnv.mk id id 0 "x") true true false
      [("name", Value.str "Ada"), ("email", Value.str "ada@school.edu"),
       ("school", Value.str "OSU"), ("password", Value.str "Relativity1"),
       ("secret_questions", Value.obj
         [("question_1", Value.str "q1"), ("question_2", Value.str "q2"),
          ("answer_1", Value.str "a1"), ("answer_2", Value.str "a2")])]).credential
      = none := by
  refine ⟨by decide, by decide, by decide⟩

/-- C6 (amended): the Credential is created only after the Teacher's
transaction commits.  A Credential never exists without its committed
Teacher; a failed teacher save or commit rolls back leaving neither; but a
failed credential save returns 500 with the Teacher already persisted and no
Credential. -/
theorem postTeacher_commit_order (cenv : CryptoEnv)
    (saveTeacherOk commitOk saveCredentialOk : Bool)
    (data : List (String × Value)) :
    ((postTeacher cenv saveTeacherOk commitOk saveCredentialOk
        data).credential.isSome = true →
      (postTeacher cenv saveTeacherOk commitOk saveCredentialOk
        data).teacher.isSome = true ∧
      (postTeacher cenv saveTeacherOk commitOk saveCredentialOk
        data).status = 201) ∧
    (saveTeacherOk = false ∨ commitOk = false →
      (postTeacher cenv saveTeacherOk commitOk saveCredentialOk
        data).teacher = none ∧
      (postTeacher cenv saveTeacherOk commitOk saveCredentialOk
        data).credential = none) ∧
    (validateProperties data teachersCreateProperties = true →
      saveTeacherOk = true → commitOk = true → saveCredentialOk = false →
      (postTeacher cenv saveTeacherOk commitOk saveCredentialOk
        data).status = 500 ∧
      (postTeacher cenv saveTeacherOk commitOk saveCredentialOk
        data).teacher.isSome = true ∧
      (postTeacher cenv saveTeacherOk commitOk saveCredentialOk
        data).credential = none) := by
  have hmain : ∀ (hv : validateProperties data teachersCreateProperties = true),
      ∃ pw sq, objGet data "password" = some (Value.str pw) ∧
        objGet data "secret_questions" = some sq ∧ (sqOfValue sq).isSome := by
    intro hv
    obtain ⟨vpw, hgetpw, hvalpw⟩ := validateProperties_required_present hv
      (show (⟨"password", VALIDATE_PASSWORD, true⟩ : Property) ∈
        teachersCreateProperties from
        List.mem_cons_of_mem _ (List.mem_cons_of_mem _
          (List.mem_cons_of_mem _ (List.mem_cons_self _ _)))) rfl
    obtain ⟨vsq, hgetsq, hvalsq⟩ := validateProperties_required_present hv
      (show (⟨"secret_questions", VALIDATE_SECRET_QUESTIONS, true⟩ :
        Property) ∈ teachersCreateProperties from
        List.mem_cons_of_mem _ (List.mem_cons_of_mem _
          (List.mem_cons_of_mem _ (List.mem_cons_of_mem _
            (List.mem_cons_self _ _))))) rfl
    obtain ⟨pw, rfl⟩ := VALIDATE_PASSWORD_isStr hvalpw
    obtain ⟨sq, hsq⟩ := sqOfValue_isSome_of_valid hvalsq
    exact ⟨pw, vsq, hgetpw, hgetsq, by rw [hsq]; rfl⟩
  refine ⟨?_, ?_, ?_⟩
  · intro h
    unfold postTeacher at h ⊢
    by_cases hv : validateProperties data teachersCreateProperties = false
    · rw [if_pos hv] at h; simp at h
    · rw [if_neg hv] at h ⊢
      obtain ⟨pw, sq, hgetpw, hgetsq, hsome⟩ := hmain (by
        cases hb : validateProperties data teachersCreateProperties
        · exact absurd hb hv
        · rfl)
      rw [hgetpw, hgetsq] at h ⊢
      dsimp only at h ⊢
      cases hsq : sqOfValue sq with
      | none => simp [hsq] at hsome
      | some s =>
        rw [hsq] at h
        dsimp only at h ⊢
        cases saveTeacherOk with
        | false => simp at h
        | true =>
          cases commitOk with
          | false => simp at h
          | true =>
            cases saveCredentialOk with
            | false => simp at h
            | true => simp
  · intro h
    unfold postTeacher
    by_cases hv : validateProperties data teachersCreateProperties = false
    · rw [if_pos hv]; exact ⟨rfl, rfl⟩
    · rw [if_neg hv]
      rcases h with rfl | rfl <;>
        refine ⟨?_, ?_⟩ <;> (repeat' split) <;> simp_all
  · intro hv hs hc hsc
    subst hs; subst hc; subst hsc
    obtain ⟨pw, sq, hgetpw, hgetsq, hsome⟩ := hmain hv
    unfold postTeacher
    rw [if_neg (by rw [hv]; simp), hgetpw, hgetsq]
    dsimp only
    cases hsq : sqOfValue sq with
    | none => simp [hsq] at hsome
    | some s =>
      dsimp only
      exact ⟨rfl, rfl, rfl⟩

/-- Witness for the amended C6 theorem at the counterexample's input. -/
theorem postTeacher_commit_order_witness :
    validateProperties
      [("name", Value.str "Ada"), ("email", Value.str "ada@school.edu"),
       ("school", Value.str "OSU"), ("password", Value.str "Relativity1"),
       ("secret_questions", Value.obj
         [("question_1", Value.str "q1"), ("question_2", Value.str "q2"),
          ("answer_1", Value.str "a1"), ("answer_2", Value.str "a2")])]
      teachersCreateProperties = true ∧
    ((postTeacher (CryptoEnv.mk id id 0 "x") true true false
      [("name", Value.str "Ada"), ("email", Value.str "ada@school.edu"),
       ("school", Value.str "OSU"), ("password", Value.str "Relativity1"),
       ("secret_questions", Value.obj
         [("question_1", Value.str "q1"), ("question_2", Value.str "q2"),
          ("answer_1", Value.str "a1"), ("answer_2", Value.str "a2")])]).status
      = 500 ∧
    (postTeacher (CryptoEnv.mk id id 0 "x") true true false
      [("name", Value.str "Ada"), ("email", Value.str "ada@school.edu"),
       ("school", Value.str "OSU"), ("password", Value.str "Relativity1"),
       ("secret_questions", Value.obj
         [("question_1", Value.str "q1"), ("question_2", Value.str "q2"),
          ("answer_1", Value.str "a1"), ("answer_2", Value.str "a2")])]).teacher.isSome
      = true ∧
    (postTeacher (CryptoEnv.mk id id 0 "x") true true false
      [("name", Value.str "Ada"), ("email", Value.str "ada@school.edu"),
       ("school", Value.str "OSU"), ("password", Value.str "Relativity1"),
       ("secret_questions", Value.obj
         [("question_1", Value.str "q1"), ("question_2", Value.str "q2"),
          ("answer_1", Value.str "a1"), ("answer_2", Value.str "a2")])]).credential
      = none) :=
  ⟨by decide,
    (postTeacher_commit_order (CryptoEnv.mk id id 0 "x") true true false
      [("name", Value.str "Ada"), ("email", Value.str "ada@school.edu"),
       ("school", Value.str "OSU"), ("password", Value.str "Relativity1"),
       ("secret_questions", Value.obj
         [("question_1", Value.str "q1"), ("question_2", Value.str "q2"),
          ("answer_1", Value.str "a1"), ("answer_2", Value.str "a2")])]).2.2
      (by decide) rfl rfl rfl⟩

/-- C8 counterexample: an invalid pagination cursor (query error code 3)
makes the list operation answer status 403 — the Forbidden status code —
not 409 Conflict. -/
theorem invalid_cursor_not_conflict_counterexample :
    (getEntities false true false true (some 3)).status = 403 ∧
    (getEntities false true false true (some 3)).status ≠ 409 := by
  refine ⟨rfl, by decide⟩

/-- C8 (amended): when the existence checks pass, an invalid pagination
cursor fails with status 403 — numerically the same status the error
taxonomy uses for Forbidden — and with a cursor-specific message, distinct
from the generic 500 server error. -/
theorem getEntities_invalid_cursor (hasAncestor ancestorExists
    teacherFilter teacherExists : Bool)
    (ha : hasAncestor = true → ancestorExists = true)
    (ht : teacherFilter = true → teacherExists = true) :
    getEntities hasAncestor ancestorExists teacherFilter teacherExists
        (some 3) =
      ⟨403, some "The start cursor provided is not a valid Datastore cursor."⟩ ∧
    (getEntities hasAncestor ancestorExists teacherFilter teacherExists
        (some 3)).status ≠ 500 := by
  have h1 : (hasAncestor && !ancestorExists) = false := by
    cases hasAncestor with
    | false => rfl
    | true => rw [ha rfl]; rfl
  have h2 : (teacherFilter && !teacherExists) = false := by
    cases teacherFilter with
    | false => rfl
    | true => rw [ht rfl]; rfl
  unfold getEntities
  rw [h1, h2]
  exact ⟨rfl, by decide⟩

/-- Witness for the amended C8 theorem. -/
theorem getEntities_invalid_cursor_witness :
    (getEntities true true true true (some 3) =
      ⟨403, some "The start cursor provided is not a valid Datastore cursor."⟩ ∧
    (getEntities true true true true (some 3)).status ≠ 500) :=
  getEntities_invalid_cursor true true true true (fun _ => rfl) (fun _ => rfl)

end KidizenScience
